import Mathlib

/-!
Shallow embedding of the one-word limit-down monitoring engine
(src/engine.py with its domain models in src/models.py) and of the
single-day backtest runner (src/backtest/runner.py, src/backtest/mapper.py).

Modelling conventions:
* Python datetimes are seconds-of-day natural numbers; minute bucketing
  truncates to the minute (integer division by 60), mirroring
  ts.replace(second=0, microsecond=0).
* Python floats are modelled as rationals.
* Python dicts are association lists: lookup finds the first matching key,
  insertion replaces in place or appends at the end, erasure filters the
  key out; Python sets are duplicate-free string lists.
* pydantic BaseModel silently drops constructor keywords that are not
  declared fields, so AlertEvent carries exactly the fields declared in
  src/models.py lines 92-111 (engine.py additionally passes
  signal_buy_flow, trigger_rule, current_buy_volume and
  cumulative_buy_volume_before, which pydantic discards).
-/

inductive DataQuality where
  | tick_a1v
  | minute_proxy
deriving DecidableEq

inductive ConfidenceLevel where
  | high
  | low
deriving DecidableEq

/-- PoolStock from src/models.py: stock metadata kept in the daily pool. -/
structure PoolStock where
  code : String
  name : String
  is_st : Bool
  pool_type : String
deriving DecidableEq

/-- StockSnapshot from src/models.py: one normalized intraday observation. -/
structure StockSnapshot where
  code : String
  name : String
  current_price : ℚ
  limit_down_price : ℚ
  high_price : ℚ
  ask_v1 : Int
  volume : Int
  data_quality : DataQuality
  ts : Nat
deriving DecidableEq

/-- StockSnapshot.is_one_word_limit_down from src/models.py. -/
def isOneWordLimitDown (s : StockSnapshot) : Bool :=
  decide (s.current_price = s.limit_down_price) && decide (s.high_price = s.limit_down_price)

/-- AlertEvent from src/models.py (only the fields pydantic declares). -/
structure AlertEvent where
  code : String
  name : String
  pool_type : String
  initial_ask_v1 : Int
  current_ask_v1 : Int
  drop_ratio : ℚ
  initial_volume : Int
  current_volume : Int
  volume_change_ratio : ℚ
  signal_ask_drop : Bool
  signal_volume_spike : Bool
  prev_window_ts : Option Nat
  curr_window_ts : Option Nat
  data_quality : DataQuality
  confidence : ConfidenceLevel
  trigger_ts : Nat
  reason : String
deriving DecidableEq

/-- _MinuteBucket from src/engine.py lines 17-26. -/
structure MinuteBucket where
  minute_key : Nat
  end_ts : Nat
  end_volume_total : Int
  last_ask_v1 : Int
  data_quality : DataQuality
deriving DecidableEq

/-- The two-element subset of rule identifiers recorded per symbol
(fired_rules_map values in src/engine.py). -/
structure FiredRules where
  buyFlow : Bool
  sell1Drop : Bool
deriving DecidableEq

def emptyFired : FiredRules := ⟨false, false⟩

def RULE_BUY_FLOW : String := "buy_flow_breakout"
def RULE_SELL1_DROP : String := "sell1_drop"
def RULE_COMBINED : String := "buy_flow_breakout_and_sell1_drop"

/-- Association-list model of a Python dict: first-match lookup. -/
def alookup {α : Type} (m : List (String × α)) (key : String) : Option α :=
  match m with
  | [] => none
  | (k, v) :: rest => if key = k then some v else alookup rest key

/-- dict assignment: replace in place, else append at the end. -/
def ainsert {α : Type} (m : List (String × α)) (key : String) (v : α) : List (String × α) :=
  match m with
  | [] => [(key, v)]
  | (k, w) :: rest => if key = k then (k, v) :: rest else (k, w) :: ainsert rest key v

/-- dict.pop(key, None): drop the key from the map. -/
def aerase {α : Type} (m : List (String × α)) (key : String) : List (String × α) :=
  m.filter (fun p => decide (p.1 ≠ key))

/-- set.add for the string sets of the engine. -/
def sadd (l : List String) (c : String) : List String :=
  if c ∈ l then l else l ++ [c]

/-- StrategyEngine state from src/engine.py (configuration plus the
per-symbol mutable maps set up in __init__). -/
structure StrategyEngine where
  ask_drop_threshold : ℚ
  volume_spike_threshold : ℚ
  signal_combination : String
  min_abs_delta_volume : Int
  vol_drop_threshold : ℚ
  confirm_minutes : Nat
  min_abs_delta_ask : Int
  active_pool : List (String × PoolStock)
  removed_pool : List String
  processed_set : List String
  fired_rules_map : List (String × FiredRules)
  prev_bucket_map : List (String × MinuteBucket)
  current_bucket_map : List (String × MinuteBucket)
  sell1_confirm_count_map : List (String × Nat)
deriving DecidableEq

/-- StrategyEngine.__init__ (the resolved configuration; negative
confirm_minutes and min_abs deltas are clamped exactly as the source does
with max). -/
def initEngine (askDropThreshold : ℚ) (confirmMinutes : Nat) (minAbsDeltaAsk : Int)
    (volumeSpikeThreshold : ℚ) (signalCombination : String) (minAbsDeltaVolume : Int) :
    StrategyEngine :=
  { ask_drop_threshold := askDropThreshold
    volume_spike_threshold := volumeSpikeThreshold
    signal_combination := signalCombination
    min_abs_delta_volume := max minAbsDeltaVolume 0
    vol_drop_threshold := askDropThreshold
    confirm_minutes := max confirmMinutes 1
    min_abs_delta_ask := max minAbsDeltaAsk 0
    active_pool := []
    removed_pool := []
    processed_set := []
    fired_rules_map := []
    prev_bucket_map := []
    current_bucket_map := []
    sell1_confirm_count_map := [] }

/-- StrategyEngine.register_pool: reset all per-symbol state and register
the candidate symbols (dict comprehension over the stocks). -/
def registerPool (e : StrategyEngine) (stocks : List PoolStock) : StrategyEngine :=
  { e with
    active_pool := stocks.foldl (fun m s => ainsert m s.code s) []
    removed_pool := []
    processed_set := []
    fired_rules_map := []
    prev_bucket_map := []
    current_bucket_map := []
    sell1_confirm_count_map := [] }

/-- StrategyEngine.monitorable_codes. -/
def monitorableCodes (e : StrategyEngine) : List String :=
  (e.active_pool.map Prod.fst).filter (fun c => decide (c ∉ e.processed_set))

/-- StrategyEngine._minute_key. -/
def minuteKey (ts : Nat) : Nat := ts / 60

/-- StrategyEngine._build_bucket. -/
def buildBucket (snap : StockSnapshot) : MinuteBucket :=
  { minute_key := minuteKey snap.ts
    end_ts := snap.ts
    end_volume_total := max snap.volume 0
    last_ask_v1 := max snap.ask_v1 0
    data_quality := snap.data_quality }

/-- StrategyEngine._clear_symbol_runtime_state. -/
def clearSymbolRuntimeState (e : StrategyEngine) (code : String) : StrategyEngine :=
  { e with
    prev_bucket_map := aerase e.prev_bucket_map code
    current_bucket_map := aerase e.current_bucket_map code
    sell1_confirm_count_map := aerase e.sell1_confirm_count_map code }

/-- The limit-breach eviction block of StrategyEngine.evaluate
(src/engine.py lines 206-211). -/
def removeSymbol (e : StrategyEngine) (code : String) : StrategyEngine :=
  let e1 := clearSymbolRuntimeState
    { e with
      removed_pool := sadd e.removed_pool code
      active_pool := aerase e.active_pool code } code
  { e1 with fired_rules_map := aerase e1.fired_rules_map code }

/-- fired_rules_map lookup with the empty set as default. -/
def firedFor (e : StrategyEngine) (code : String) : FiredRules :=
  (alookup e.fired_rules_map code).getD emptyFired

/-- sell1_confirm_count_map.get(code, 0). -/
def sell1Count (e : StrategyEngine) (code : String) : Nat :=
  (alookup e.sell1_confirm_count_map code).getD 0

/-- fired_rules_map.setdefault(code, set()). -/
def setdefaultFired (m : List (String × FiredRules)) (code : String) :
    List (String × FiredRules) :=
  match alookup m code with
  | some _ => m
  | none => m ++ [(code, emptyFired)]

/-- cumulative_before in _emit_alert_if_hit. -/
def cumulativeBefore (previous : MinuteBucket) : Int :=
  max previous.end_volume_total 0

/-- current_buy_volume in _emit_alert_if_hit. -/
def currentBuyVolume (previous current : MinuteBucket) : Int :=
  max (current.end_volume_total - previous.end_volume_total) 0

/-- signal_buy_flow in _emit_alert_if_hit. -/
def buyFlowSignal (fired : FiredRules) (previous current : MinuteBucket) : Bool :=
  !fired.buyFlow && decide (0 < cumulativeBefore previous)
    && decide (cumulativeBefore previous < currentBuyVolume previous current)

/-- ask_base in _emit_alert_if_hit. -/
def askBase (previous : MinuteBucket) : Int := max previous.last_ask_v1 1

/-- ask_delta in _emit_alert_if_hit. -/
def askDelta (previous current : MinuteBucket) : Int :=
  previous.last_ask_v1 - current.last_ask_v1

/-- ask_change_ratio in _emit_alert_if_hit (float division as exact
rational division, written with Rat.divInt so the kernel can evaluate it;
askChangeRatio_eq_div below restates it as a division). -/
def askChangeRatio (previous current : MinuteBucket) : ℚ :=
  Rat.divInt (askDelta previous current) (askBase previous)

/-- volume_change_ratio in _emit_alert_if_hit. -/
def volumeChangeRatio (previous current : MinuteBucket) : ℚ :=
  Rat.divInt (current.end_volume_total - previous.end_volume_total)
    (max previous.end_volume_total 1)

/-- ask_drop_hit in _emit_alert_if_hit. -/
def askDropHit (e : StrategyEngine) (previous current : MinuteBucket) : Bool :=
  decide (e.ask_drop_threshold ≤ askChangeRatio previous current)
    && decide (e.min_abs_delta_ask ≤ askDelta previous current)

/-- hit_count in _emit_alert_if_hit: increment on a qualifying minute,
reset to zero otherwise. -/
def nextHitCount (e : StrategyEngine) (code : String) (previous current : MinuteBucket) : Nat :=
  if askDropHit e previous current then sell1Count e code + 1 else 0

/-- signal_sell1_drop in _emit_alert_if_hit. -/
def sell1Signal (e : StrategyEngine) (code : String) (previous current : MinuteBucket) : Bool :=
  !(firedFor e code).sell1Drop && askDropHit e previous current
    && decide (e.confirm_minutes ≤ nextHitCount e code previous current)

/-- StrategyEngine._emit_alert_if_hit (src/engine.py lines 111-189).
The counter update and the setdefault insertion happen even when no rule
fires; pydantic discards the undeclared AlertEvent keywords, so the built
event carries only the declared fields. -/
def emitAlertIfHit (e : StrategyEngine) (code : String) (ps : PoolStock)
    (previous current : MinuteBucket) : StrategyEngine × Option AlertEvent :=
  let fired := firedFor e code
  let firedMap0 := setdefaultFired e.fired_rules_map code
  let sBuy := buyFlowSignal fired previous current
  let hitCount := nextHitCount e code previous current
  let counterMap := ainsert e.sell1_confirm_count_map code hitCount
  let sSell := sell1Signal e code previous current
  if sBuy || sSell then
    let reason :=
      if sBuy && sSell then RULE_COMBINED
      else if sBuy then RULE_BUY_FLOW
      else RULE_SELL1_DROP
    let fired1 : FiredRules := ⟨fired.buyFlow || sBuy, fired.sell1Drop || sSell⟩
    let processed1 :=
      if fired1.buyFlow && fired1.sell1Drop then sadd e.processed_set code
      else e.processed_set
    ({ e with
        fired_rules_map := ainsert firedMap0 code fired1
        sell1_confirm_count_map := counterMap
        processed_set := processed1 },
     some
       { code := code
         name := ps.name
         pool_type := ps.pool_type
         initial_ask_v1 := previous.last_ask_v1
         current_ask_v1 := current.last_ask_v1
         drop_ratio := askChangeRatio previous current
         initial_volume := previous.end_volume_total
         current_volume := current.end_volume_total
         volume_change_ratio := volumeChangeRatio previous current
         signal_ask_drop := sSell
         signal_volume_spike := false
         prev_window_ts := some previous.end_ts
         curr_window_ts := some current.end_ts
         data_quality := current.data_quality
         confidence :=
           if current.data_quality = DataQuality.tick_a1v then ConfidenceLevel.high
           else ConfidenceLevel.low
         trigger_ts := current.end_ts
         reason := reason })
  else
    ({ e with fired_rules_map := firedMap0, sell1_confirm_count_map := counterMap }, none)

/-- StrategyEngine._finalize_completed_bucket. -/
def finalizeCompletedBucket (e : StrategyEngine) (code : String) (ps : PoolStock)
    (completed : MinuteBucket) : StrategyEngine × Option AlertEvent :=
  match alookup e.prev_bucket_map code with
  | none => ({ e with sell1_confirm_count_map := ainsert e.sell1_confirm_count_map code 0 }, none)
  | some previous => emitAlertIfHit e code ps previous completed

/-- The one-word bucket-aggregation tail of StrategyEngine.evaluate
(src/engine.py lines 218-234). -/
def evaluateOneWord (e : StrategyEngine) (ps : PoolStock) (snap : StockSnapshot) :
    StrategyEngine × Option AlertEvent :=
  let incoming := buildBucket snap
  match alookup e.current_bucket_map snap.code with
  | none => ({ e with current_bucket_map := ainsert e.current_bucket_map snap.code incoming }, none)
  | some cur =>
    if incoming.minute_key = cur.minute_key then
      ({ e with current_bucket_map := ainsert e.current_bucket_map snap.code incoming }, none)
    else
      let r := finalizeCompletedBucket e snap.code ps cur
      ({ r.1 with
          prev_bucket_map := ainsert r.1.prev_bucket_map snap.code cur
          current_bucket_map := ainsert r.1.current_bucket_map snap.code incoming },
       r.2)

/-- StrategyEngine.evaluate (src/engine.py lines 199-234). -/
def evaluate (e : StrategyEngine) (snap : StockSnapshot) : StrategyEngine × Option AlertEvent :=
  match alookup e.active_pool snap.code with
  | none => (e, none)
  | some ps =>
    if snap.code ∈ e.processed_set then (e, none)
    else if snap.limit_down_price < snap.high_price then
      (removeSymbol e snap.code, none)
    else if isOneWordLimitDown snap then
      evaluateOneWord e ps snap
    else
      (clearSymbolRuntimeState e snap.code, none)

/-- One iteration of the flush loop in StrategyEngine.flush_pending. -/
def flushStep (acc : StrategyEngine × List AlertEvent) (item : String × MinuteBucket) :
    StrategyEngine × List AlertEvent :=
  match alookup acc.1.active_pool item.1 with
  | none => acc
  | some ps =>
    if item.1 ∈ acc.1.processed_set then acc
    else
      let r := finalizeCompletedBucket acc.1 item.1 ps item.2
      let e1 := { r.1 with prev_bucket_map := ainsert r.1.prev_bucket_map item.1 item.2 }
      match r.2 with
      | some ev => (e1, acc.2 ++ [ev])
      | none => (e1, acc.2)

/-- StrategyEngine.flush_pending (src/engine.py lines 236-251): iterate a
snapshot of the pending buckets, then clear them all. -/
def flushPending (e : StrategyEngine) : StrategyEngine × List AlertEvent :=
  let r := e.current_bucket_map.foldl flushStep (e, [])
  ({ r.1 with current_bucket_map := [] }, r.2)

/-- One external call to the session engine. -/
inductive Cmd where
  | eval : StockSnapshot → Cmd
  | flush : Cmd

/-- Run a sequence of evaluate/flush calls, collecting every emitted alert. -/
def runCmds (e : StrategyEngine) (cmds : List Cmd) : StrategyEngine × List AlertEvent :=
  match cmds with
  | [] => (e, [])
  | Cmd.eval s :: rest =>
    let r := evaluate e s
    let r2 := runCmds r.1 rest
    (r2.1, r.2.toList ++ r2.2)
  | Cmd.flush :: rest =>
    let r := flushPending e
    let r2 := runCmds r.1 rest
    (r2.1, r.2 ++ r2.2)

/-- The two rule identifiers of the engine. -/
inductive RuleId where
  | buyFlow
  | sell1Drop
deriving DecidableEq

/-- Flag of one rule inside a FiredRules record. -/
def ruleFlag (f : FiredRules) (r : RuleId) : Bool :=
  match r with
  | RuleId.buyFlow => f.buyFlow
  | RuleId.sell1Drop => f.sell1Drop

/-- Whether an alert attributes the given rule, read off its reason code
(the reason is the combined code exactly when both rules fired together). -/
def alertAttributes (ev : AlertEvent) (r : RuleId) : Bool :=
  match r with
  | RuleId.buyFlow => decide (ev.reason = RULE_BUY_FLOW) || decide (ev.reason = RULE_COMBINED)
  | RuleId.sell1Drop => decide (ev.reason = RULE_SELL1_DROP) || decide (ev.reason = RULE_COMBINED)

/-- Number of alerts in a trace that attribute rule r to the symbol. -/
def countRule (evs : List AlertEvent) (code : String) (r : RuleId) : Nat :=
  evs.countP (fun ev => decide (ev.code = code) && alertAttributes ev r)

/-- A symbol can no longer produce alerts for rule r: the rule is already
marked fired, or the symbol is gone from the active pool. -/
def blockedB (e : StrategyEngine) (code : String) (r : RuleId) : Bool :=
  ruleFlag (firedFor e code) r || (alookup e.active_pool code).isNone

/-- Internal invariant: a symbol with both rules marked fired is in the
fully-silenced processed set. -/
def InvP (e : StrategyEngine) : Prop :=
  ∀ c, (firedFor e c).buyFlow = true → (firedFor e c).sell1Drop = true → c ∈ e.processed_set

/-!
Backtest runner embedding (src/backtest/runner.py, src/backtest/mapper.py).
A provider bar is a record of optional fields: none stands for the missing
or sentinel-coded values (None, empty string, dash) that the mapper rejects
and for an unparseable timestamp. The provider itself is external I/O, so
the runner is modelled over the bar list it returns.
-/

/-- One raw provider minute bar. -/
structure MinuteBar where
  ts : Option Nat
  close : Option ℚ
  high : Option ℚ
  limit_down_price : Option ℚ
  ask_v1 : Option Int
  volume : Option Int
  data_quality : Option DataQuality
deriving DecidableEq

/-- BacktestRequest from src/backtest/runner.py (trade_date is only handed
to the external provider, so it is not part of the modelled computation). -/
structure BacktestRequest where
  code : String
  ask_drop_threshold : ℚ
  volume_spike_threshold : ℚ
  confirm_minutes : Nat
  signal_combination : String
  min_abs_delta_ask : Int
  min_abs_delta_volume : Int
  window_start : Nat
  window_end : Nat
deriving DecidableEq

/-- BacktestResult from src/backtest/runner.py. -/
structure BacktestResult where
  triggered : Bool
  trigger_time : Option Nat
  reason : String
  prev_window_ts : Option Nat
  curr_window_ts : Option Nat
  prev_ask_v1 : Option Int
  curr_ask_v1 : Option Int
  ask_change_ratio : Option ℚ
  prev_volume : Option Int
  curr_volume : Option Int
  volume_change_ratio : Option ℚ
  signal_ask_drop : Bool
  signal_volume_spike : Bool
  data_quality : DataQuality
  confidence : ConfidenceLevel
  samples : Nat
  samples_in_window : Nat
deriving DecidableEq

/-- The runtime error the runner can raise.  attributeError models the
AttributeError thrown when runner.py reads last_point.ts, last_point.ask_v1
or last_point.volume from a _MinuteBucket, whose fields are named end_ts,
last_ask_v1 and end_volume_total instead. -/
inductive RunnerError where
  | attributeError
deriving DecidableEq

/-- minute_bar_to_snapshot from src/backtest/mapper.py: reject missing
required fields, default close/high to 0 and data quality to minute_proxy. -/
def minuteBarToSnapshot (bar : MinuteBar) (code : String) (name : String) :
    Option StockSnapshot :=
  if bar.limit_down_price.isNone then none
  else if bar.ask_v1.isNone then none
  else if bar.volume.isNone then none
  else if bar.ts.isNone then none
  else
    some
      { code := code
        name := name
        current_price := bar.close.getD 0
        limit_down_price := bar.limit_down_price.getD 0
        high_price := bar.high.getD 0
        ask_v1 := bar.ask_v1.getD 0
        volume := bar.volume.getD 0
        data_quality := bar.data_quality.getD DataQuality.minute_proxy
        ts := bar.ts.getD 0 }

/-- _sort_key ordering: bars are compared by the string rendering of their
timestamp, which for same-day timestamps of one format is chronological
order; a missing timestamp sorts first. -/
def barLE (a b : MinuteBar) : Bool :=
  match a.ts, b.ts with
  | some x, some y => decide (x ≤ y)
  | none, _ => true
  | some _, none => false

/-- Stable insertion used by the replay sort. -/
def insertBar (bar : MinuteBar) (sortedBars : List MinuteBar) : List MinuteBar :=
  match sortedBars with
  | [] => [bar]
  | b :: rest => if barLE b bar then b :: insertBar bar rest else bar :: b :: rest

/-- sorted(raw_bars, key=_sort_key): stable chronological sort. -/
def sortBars (bars : List MinuteBar) : List MinuteBar :=
  bars.foldl (fun acc b => insertBar b acc) []

/-- The window-filtering loop of run_single_day_backtest: none signals the
ValueError raised by _coerce_ts on an unparseable timestamp. -/
def windowFilter (req : BacktestRequest) (bars : List MinuteBar) :
    Option (List MinuteBar) :=
  match bars with
  | [] => some []
  | bar :: rest =>
    match bar.ts with
    | none => none
    | some t =>
      match windowFilter req rest with
      | none => none
      | some tail =>
        some (if req.window_start ≤ t ∧ t ≤ req.window_end then bar :: tail else tail)

/-- A non-triggered BacktestResult with the conservative default quality
(minute_proxy, low) and all window fields empty. -/
def emptyResult (reason : String) (samples samplesInWindow : Nat) : BacktestResult :=
  { triggered := false
    trigger_time := none
    reason := reason
    prev_window_ts := none
    curr_window_ts := none
    prev_ask_v1 := none
    curr_ask_v1 := none
    ask_change_ratio := none
    prev_volume := none
    curr_volume := none
    volume_change_ratio := none
    signal_ask_drop := false
    signal_volume_spike := false
    data_quality := DataQuality.minute_proxy
    confidence := ConfidenceLevel.low
    samples := samples
    samples_in_window := samplesInWindow }

/-- The triggered BacktestResult built from the first non-null alert. -/
def triggeredResult (event : AlertEvent) (snapTs : Nat) (samples samplesInWindow : Nat) :
    BacktestResult :=
  { triggered := true
    trigger_time := some snapTs
    reason := event.reason
    prev_window_ts := event.prev_window_ts
    curr_window_ts := event.curr_window_ts
    prev_ask_v1 := some event.initial_ask_v1
    curr_ask_v1 := some event.current_ask_v1
    ask_change_ratio := some event.drop_ratio
    prev_volume := some event.initial_volume
    curr_volume := some event.current_volume
    volume_change_ratio := some event.volume_change_ratio
    signal_ask_drop := event.signal_ask_drop
    signal_volume_spike := event.signal_volume_spike
    data_quality := event.data_quality
    confidence := event.confidence
    samples := samples
    samples_in_window := samplesInWindow }

/-- The non-triggered result paths dereferencing last_point
(= strategy.prev_window_map.get(request.code)): when a previous bucket is
present the source reads last_point.ts on a _MinuteBucket and raises
AttributeError; only the bucket-free path returns normally. -/
def strandedResult (e : StrategyEngine) (code reason : String)
    (samples samplesInWindow : Nat) : Except RunnerError BacktestResult :=
  match alookup e.prev_bucket_map code with
  | some _ => Except.error RunnerError.attributeError
  | none => Except.ok (emptyResult reason samples samplesInWindow)

/-- The replay loop of run_single_day_backtest over the windowed bars. -/
def replayBars (req : BacktestRequest) (samples samplesInWindow : Nat)
    (e : StrategyEngine) (hasOneWord : Bool) (bars : List MinuteBar) :
    Except RunnerError BacktestResult :=
  match bars with
  | [] =>
    strandedResult e req.code
      (if hasOneWord then "threshold_not_met" else "no_one_word_limit_down")
      samples samplesInWindow
  | bar :: rest =>
    match minuteBarToSnapshot bar req.code req.code with
    | none => strandedResult e req.code "insufficient_data" samples samplesInWindow
    | some snap =>
      let hasOW := hasOneWord || isOneWordLimitDown snap
      let r := evaluate e snap
      match r.2 with
      | some event => Except.ok (triggeredResult event snap.ts samples samplesInWindow)
      | none => replayBars req samples samplesInWindow r.1 hasOW rest

/-- run_single_day_backtest from src/backtest/runner.py (engine argument
defaulted, so the engine is built from the request exactly as the source
does). -/
def runSingleDayBacktest (req : BacktestRequest) (rawBars : List MinuteBar) :
    Except RunnerError BacktestResult :=
  if rawBars.isEmpty then Except.ok (emptyResult "no_data" 0 0)
  else
    let ordered := sortBars rawBars
    match windowFilter req ordered with
    | none => Except.ok (emptyResult "insufficient_data" rawBars.length 0)
    | some windowed =>
      if windowed.isEmpty then Except.ok (emptyResult "no_data_in_window" rawBars.length 0)
      else
        let strategy :=
          registerPool
            (initEngine req.ask_drop_threshold req.confirm_minutes req.min_abs_delta_ask
              req.volume_spike_threshold req.signal_combination req.min_abs_delta_volume)
            [{ code := req.code, name := req.code, is_st := false, pool_type := "all" }]
        replayBars req rawBars.length windowed.length strategy false windowed

/-!
Concrete inputs used by the scenario claims and witnesses.
-/

/-- The single monitored stock of the scenario runs. -/
def stockA : PoolStock := ⟨"600000", "A", false, "all"⟩

/-- A one-word limit-down snapshot for stockA: price pinned at 10. -/
def snapOW (ts : Nat) (ask : Int) (vol : Int) : StockSnapshot :=
  ⟨"600000", "A", 10, 10, 10, ask, vol, DataQuality.minute_proxy, ts⟩

/-- A non-one-word snapshot that does not breach the limit: current price
9.9, high 10 = limit-down 10. -/
def snapGlitch (ts : Nat) (ask : Int) (vol : Int) : StockSnapshot :=
  ⟨"600000", "A", Rat.divInt 99 10, 10, 10, ask, vol, DataQuality.minute_proxy, ts⟩

/-- A snapshot whose high 10.1 breaches the limit-down price 10. -/
def snapBreach (ts : Nat) : StockSnapshot :=
  ⟨"600000", "A", 10, 10, Rat.divInt 101 10, 1000, 600, DataQuality.minute_proxy, ts⟩

/-- Engine configuration: ask_drop_threshold 0.3, confirm_minutes 1. -/
def cfgEngine : StrategyEngine := initEngine (Rat.divInt 3 10) 1 0 (Rat.divInt 4 5) "and" 0

/-- Engine configuration: ask_drop_threshold 0.3, confirm_minutes 2. -/
def cfgEngine2 : StrategyEngine := initEngine (Rat.divInt 3 10) 2 0 (Rat.divInt 4 5) "and" 0

/-- Four one-word minutes 13:00-13:03 that fire both rules together on the
fourth minute (ask 800 to 200 is a 75 percent drop; buy volume 350 exceeds
the prior cumulative 150). -/
def combinedCmds : List Cmd :=
  [Cmd.eval (snapOW 46800 1000 100), Cmd.eval (snapOW 46860 800 150),
   Cmd.eval (snapOW 46920 200 500), Cmd.eval (snapOW 46980 190 520)]

/-- The engine state after the combined firing: stockA fully silenced. -/
def silencedEngine : StrategyEngine :=
  (runCmds (registerPool cfgEngine [stockA]) combinedCmds).1

/-- The C7 scenario feed: three consecutive one-word minutes with ask sizes
1000, 600, 300 under confirm_minutes 2 and threshold 0.3. -/
def c7Cmds : List Cmd :=
  [Cmd.eval (snapOW 46800 1000 100), Cmd.eval (snapOW 46860 600 150),
   Cmd.eval (snapOW 46920 300 200)]

/-- Sell-one qualifying run 13:00-13:03 (ask 1000, 600, 300, 200) that
fires under confirm_minutes 2 on the fourth minute. -/
def firingCmds : List Cmd :=
  [Cmd.eval (snapOW 46800 1000 100), Cmd.eval (snapOW 46860 600 150),
   Cmd.eval (snapOW 46920 300 200), Cmd.eval (snapOW 46980 200 250)]

/-- The same qualifying pressure with a non-one-word glitch minute at 13:02
interposed, plus a session-end flush. -/
def preventedCmds : List Cmd :=
  [Cmd.eval (snapOW 46800 1000 100), Cmd.eval (snapOW 46860 600 150),
   Cmd.eval (snapGlitch 46920 450 220), Cmd.eval (snapOW 46980 300 220),
   Cmd.eval (snapOW 47040 200 260), Cmd.flush]

/-- A one-word provider bar pinned at price 10. -/
def barOW (ts : Nat) (ask : Int) (vol : Int) : MinuteBar :=
  ⟨some ts, some 10, some 10, some 10, some ask, some vol, some DataQuality.minute_proxy⟩

/-- The C8 bar list: cumulative volumes 100 and 200 at 09:31/09:32 (outside
the window) and 50 and 400 in-window at 13:01/13:02, all one-word. -/
def c8Bars : List MinuteBar :=
  [barOW 34260 1000 100, barOW 34320 1000 200, barOW 46860 1000 50, barOW 46920 1000 400]

/-- The backtest request used by the runner scenarios: window 13:00-15:00,
threshold 0.3, confirm_minutes 1. -/
def c8Request : BacktestRequest :=
  ⟨"600000", Rat.divInt 3 10, Rat.divInt 4 5, 1, "and", 0, 0, 46800, 54000⟩

/-- Two quiet in-window one-word bars: the replay ends without a trigger
while a previous bucket is present. -/
def c5Bars : List MinuteBar :=
  [barOW 46860 1000 100, barOW 46920 1000 110]

/-- The firing signal of one rule inside _emit_alert_if_hit, selected by
rule identifier. -/
def signalOf (e : StrategyEngine) (code : String) (p c : MinuteBucket) (r : RuleId) : Bool :=
  match r with
  | RuleId.buyFlow => buyFlowSignal (firedFor e code) p c
  | RuleId.sell1Drop => sell1Signal e code p c

/-!
Association-list and set lemmas.
-/

theorem alookup_ainsert {α : Type} (m : List (String × α)) (k : String) (v : α) (kq : String) :
    alookup (ainsert m k v) kq = if kq = k then some v else alookup m kq := by
  induction m with
  | nil =>
    by_cases h : kq = k <;> simp [ainsert, alookup, h]
  | cons p rest ih =>
    obtain ⟨pk, pv⟩ := p
    by_cases hk : k = pk
    · subst hk
      by_cases hq : kq = k <;> simp [ainsert, alookup, hq]
    · by_cases hq : kq = pk
      · subst hq
        have : ¬ kq = k := fun h => hk h.symm
        simp [ainsert, alookup, hk, this]
      · by_cases hq2 : kq = k
        · subst hq2
          simp [ainsert, alookup, hk, hq, ih]
        · simp [ainsert, alookup, hk, hq, hq2, ih]

theorem alookup_aerase {α : Type} (m : List (String × α)) (k kq : String) :
    alookup (aerase m k) kq = if kq = k then none else alookup m kq := by
  induction m with
  | nil => by_cases h : kq = k <;> simp [aerase, alookup, h]
  | cons p rest ih =>
    obtain ⟨pk, pv⟩ := p
    by_cases hp : pk = k
    · subst hp
      by_cases hq : kq = pk <;> simp [aerase, alookup, hq, ih] at *
      · simpa [aerase] using ih
      · simpa [aerase, alookup, hq] using ih
    · by_cases hq : kq = pk
      · subst hq
        simp [aerase, alookup, hp, fun h : kq = k => hp h]  
      · simp [aerase, alookup, hp, hq] at *
        simpa [aerase] using ih

theorem mem_sadd (l : List String) (a c : String) :
    a ∈ sadd l c ↔ a ∈ l ∨ a = c := by
  by_cases h : c ∈ l
  · simp only [sadd, if_pos h]
    constructor
    · exact fun ha => Or.inl ha
    · rintro (ha | ha)
      · exact ha
      · subst ha
        exact h
  · simp [sadd, h]

theorem alookup_isSome_iff_mem_keys {α : Type} (m : List (String × α)) (c : String) :
    (alookup m c).isSome = true ↔ c ∈ m.map Prod.fst := by
  induction m with
  | nil => simp [alookup]
  | cons p rest ih =>
    obtain ⟨pk, pv⟩ := p
    by_cases h : c = pk <;> simp [alookup, h, ih]

theorem alookup_append_single {α : Type} (m : List (String × α)) (k0 : String) (v0 : α)
    (kq : String) :
    alookup (m ++ [(k0, v0)]) kq =
      match alookup m kq with
      | some v => some v
      | none => if kq = k0 then some v0 else none := by
  induction m with
  | nil => simp [alookup]
  | cons p rest ih =>
    obtain ⟨pk, pv⟩ := p
    by_cases h : kq = pk <;> simp [alookup, h, ih]

theorem alookup_setdefaultFired (m : List (String × FiredRules)) (code kq : String) :
    alookup (setdefaultFired m code) kq =
      if kq = code then some ((alookup m code).getD emptyFired) else alookup m kq := by
  unfold setdefaultFired
  cases hm : alookup m code with
  | some f =>
    by_cases hq : kq = code
    · subst hq
      simp [hm]
    · simp [hq]
  | none =>
    rw [alookup_append_single]
    by_cases hq : kq = code
    · subst hq
      simp [hm]
    · cases h2 : alookup m kq <;> simp [hq, h2]

/-!
Characterization of _emit_alert_if_hit.
-/

theorem emit_frame (e : StrategyEngine) (code : String) (ps : PoolStock)
    (p c : MinuteBucket) :
    (emitAlertIfHit e code ps p c).1.active_pool = e.active_pool ∧
    (emitAlertIfHit e code ps p c).1.removed_pool = e.removed_pool ∧
    (emitAlertIfHit e code ps p c).1.prev_bucket_map = e.prev_bucket_map ∧
    (emitAlertIfHit e code ps p c).1.current_bucket_map = e.current_bucket_map := by
  cases hb : buyFlowSignal ((alookup e.fired_rules_map code).getD emptyFired) p c <;>
    cases hs : sell1Signal e code p c <;>
      simp [emitAlertIfHit, firedFor, hb, hs]

theorem firedFor_emit_self (e : StrategyEngine) (code : String) (ps : PoolStock)
    (p c : MinuteBucket) :
    firedFor (emitAlertIfHit e code ps p c).1 code =
      ⟨(firedFor e code).buyFlow || buyFlowSignal (firedFor e code) p c,
       (firedFor e code).sell1Drop || sell1Signal e code p c⟩ := by
  cases hb : buyFlowSignal ((alookup e.fired_rules_map code).getD emptyFired) p c <;>
    cases hs : sell1Signal e code p c <;>
      simp [emitAlertIfHit, firedFor, hb, hs, alookup_ainsert, alookup_setdefaultFired]

theorem firedFor_emit_ne (e : StrategyEngine) (code : String) (ps : PoolStock)
    (p c : MinuteBucket) (kq : String) (hq : kq ≠ code) :
    firedFor (emitAlertIfHit e code ps p c).1 kq = firedFor e kq := by
  cases hb : buyFlowSignal ((alookup e.fired_rules_map code).getD emptyFired) p c <;>
    cases hs : sell1Signal e code p c <;>
      simp [emitAlertIfHit, firedFor, hb, hs, alookup_ainsert, alookup_setdefaultFired, hq]

theorem sell1Count_emit_self (e : StrategyEngine) (code : String) (ps : PoolStock)
    (p c : MinuteBucket) :
    sell1Count (emitAlertIfHit e code ps p c).1 code = nextHitCount e code p c := by
  cases hb : buyFlowSignal ((alookup e.fired_rules_map code).getD emptyFired) p c <;>
    cases hs : sell1Signal e code p c <;>
      simp [emitAlertIfHit, firedFor, hb, hs, sell1Count, alookup_ainsert]

theorem emit_processed_eq (e : StrategyEngine) (code : String) (ps : PoolStock)
    (p c : MinuteBucket) :
    (emitAlertIfHit e code ps p c).1.processed_set =
      if (buyFlowSignal (firedFor e code) p c || sell1Signal e code p c)
          && (((firedFor e code).buyFlow || buyFlowSignal (firedFor e code) p c)
            && ((firedFor e code).sell1Drop || sell1Signal e code p c)) then
        sadd e.processed_set code
      else e.processed_set := by
  cases hb : buyFlowSignal ((alookup e.fired_rules_map code).getD emptyFired) p c <;>
    cases hs : sell1Signal e code p c <;>
      simp [emitAlertIfHit, firedFor, hb, hs]

theorem emit_event_spec (e : StrategyEngine) (code : String) (ps : PoolStock)
    (p c : MinuteBucket) :
    match (emitAlertIfHit e code ps p c).2 with
    | none => buyFlowSignal (firedFor e code) p c = false ∧ sell1Signal e code p c = false
    | some ev =>
        ev.code = code ∧
        alertAttributes ev RuleId.buyFlow = buyFlowSignal (firedFor e code) p c ∧
        alertAttributes ev RuleId.sell1Drop = sell1Signal e code p c := by
  cases hb : buyFlowSignal ((alookup e.fired_rules_map code).getD emptyFired) p c <;>
    cases hs : sell1Signal e code p c <;>
      simp [emitAlertIfHit, firedFor, hb, hs, alertAttributes, RULE_BUY_FLOW, RULE_SELL1_DROP,
        RULE_COMBINED]

theorem signalOf_false_of_flag (e : StrategyEngine) (code : String) (p c : MinuteBucket)
    (r : RuleId) (h : ruleFlag (firedFor e code) r = true) :
    signalOf e code p c r = false := by
  cases r <;> simp [signalOf, ruleFlag, buyFlowSignal, sell1Signal] at * <;> simp [h]

theorem emit_flag_self (e : StrategyEngine) (code : String) (ps : PoolStock)
    (p c : MinuteBucket) (r : RuleId) :
    ruleFlag (firedFor (emitAlertIfHit e code ps p c).1 code) r =
      (ruleFlag (firedFor e code) r || signalOf e code p c r) := by
  rw [firedFor_emit_self]
  cases r <;> simp [ruleFlag, signalOf]

theorem emit_event_code (e : StrategyEngine) (code : String) (ps : PoolStock)
    (p c : MinuteBucket) (ev : AlertEvent) (h : (emitAlertIfHit e code ps p c).2 = some ev) :
    ev.code = code := by
  have := emit_event_spec e code ps p c
  rw [h] at this
  exact this.1

theorem emit_event_attr (e : StrategyEngine) (code : String) (ps : PoolStock)
    (p c : MinuteBucket) (ev : AlertEvent) (r : RuleId)
    (h : (emitAlertIfHit e code ps p c).2 = some ev) :
    alertAttributes ev r = signalOf e code p c r := by
  have := emit_event_spec e code ps p c
  rw [h] at this
  cases r
  · exact this.2.1
  · exact this.2.2

theorem emit_inv (e : StrategyEngine) (code : String) (ps : PoolStock)
    (p c : MinuteBucket) (h : InvP e) : InvP (emitAlertIfHit e code ps p c).1 := by
  intro c0 hb0 hs0
  rw [emit_processed_eq]
  by_cases hc : c0 = code
  · subst hc
    have hb' : (firedFor e c0).buyFlow = true ∨ buyFlowSignal (firedFor e c0) p c = true := by
      have hx := hb0
      rw [firedFor_emit_self] at hx
      simpa [Bool.or_eq_true] using hx
    have hs' : (firedFor e c0).sell1Drop = true ∨ sell1Signal e c0 p c = true := by
      have hx := hs0
      rw [firedFor_emit_self] at hx
      simpa [Bool.or_eq_true] using hx
    by_cases hsig : (buyFlowSignal (firedFor e c0) p c || sell1Signal e c0 p c) = true
    · have hcond : ((buyFlowSignal (firedFor e c0) p c || sell1Signal e c0 p c)
          && (((firedFor e c0).buyFlow || buyFlowSignal (firedFor e c0) p c)
            && ((firedFor e c0).sell1Drop || sell1Signal e c0 p c))) = true := by
        rw [hsig]
        simp only [Bool.true_and, Bool.and_eq_true, Bool.or_eq_true]
        exact ⟨hb', hs'⟩
      rw [if_pos hcond]
      exact (mem_sadd _ _ _).mpr (Or.inr rfl)
    · have hor : (buyFlowSignal (firedFor e c0) p c || sell1Signal e c0 p c) = false := by
        cases hx : (buyFlowSignal (firedFor e c0) p c || sell1Signal e c0 p c)
        · rfl
        · exact absurd hx hsig
      have hbS : buyFlowSignal (firedFor e c0) p c = false := by
        rcases Bool.or_eq_false_iff.mp hor with ⟨h1, _⟩
        exact h1
      have hsS : sell1Signal e c0 p c = false := by
        rcases Bool.or_eq_false_iff.mp hor with ⟨_, h2⟩
        exact h2
      rw [if_neg (by rw [hor]; simp)]
      have hbf : (firedFor e c0).buyFlow = true := by
        rcases hb' with h1 | h1
        · exact h1
        · rw [hbS] at h1
          exact absurd h1 (by simp)
      have hsf : (firedFor e c0).sell1Drop = true := by
        rcases hs' with h1 | h1
        · exact h1
        · rw [hsS] at h1
          exact absurd h1 (by simp)
      exact h c0 hbf hsf
  · rw [firedFor_emit_ne e code ps p c c0 hc] at hb0 hs0
    have hmem := h c0 hb0 hs0
    split
    · exact (mem_sadd _ _ _).mpr (Or.inl hmem)
    · exact hmem

theorem emit_processed_mono (e : StrategyEngine) (code : String) (ps : PoolStock)
    (p c : MinuteBucket) (c0 : String) (h : c0 ∈ e.processed_set) :
    c0 ∈ (emitAlertIfHit e code ps p c).1.processed_set := by
  rw [emit_processed_eq]
  split
  · exact (mem_sadd _ _ _).mpr (Or.inl h)
  · exact h

/-!
Lemmas about the one-word aggregation tail of evaluate.
-/

theorem ow_frame (e : StrategyEngine) (ps : PoolStock) (snap : StockSnapshot) :
    (evaluateOneWord e ps snap).1.active_pool = e.active_pool ∧
    (evaluateOneWord e ps snap).1.removed_pool = e.removed_pool := by
  unfold evaluateOneWord finalizeCompletedBucket
  cases hc : alookup e.current_bucket_map snap.code with
  | none => simp
  | some cur =>
    by_cases hm : (buildBucket snap).minute_key = cur.minute_key
    · simp [hm]
    · cases hp : alookup e.prev_bucket_map snap.code with
      | none => simp [hm]
      | some prev =>
        have hf := emit_frame e snap.code ps prev cur
        simp [hm, hf.1, hf.2.1]

/-- Case analysis for evaluateOneWord: either no alert is produced and the
fired/processed state is untouched, or the call defers to _emit_alert_if_hit
on the completed bucket pair. -/
theorem ow_cases (e : StrategyEngine) (ps : PoolStock) (snap : StockSnapshot) :
    ((evaluateOneWord e ps snap).2 = none ∧
      (evaluateOneWord e ps snap).1.fired_rules_map = e.fired_rules_map ∧
      (evaluateOneWord e ps snap).1.processed_set = e.processed_set)
    ∨ ∃ prev cur,
        (evaluateOneWord e ps snap).2 = (emitAlertIfHit e snap.code ps prev cur).2 ∧
        (evaluateOneWord e ps snap).1.fired_rules_map =
          (emitAlertIfHit e snap.code ps prev cur).1.fired_rules_map ∧
        (evaluateOneWord e ps snap).1.processed_set =
          (emitAlertIfHit e snap.code ps prev cur).1.processed_set := by
  unfold evaluateOneWord finalizeCompletedBucket
  cases hc : alookup e.current_bucket_map snap.code with
  | none => left; simp
  | some cur =>
    by_cases hm : (buildBucket snap).minute_key = cur.minute_key
    · left
      simp [hm]
    · cases hp : alookup e.prev_bucket_map snap.code with
      | none =>
        left
        simp [hm]
      | some prev =>
        right
        exact ⟨prev, cur, by simp [hm], by simp [hm], by simp [hm]⟩

theorem ow_firedFor_ne (e : StrategyEngine) (ps : PoolStock) (snap : StockSnapshot)
    (c0 : String) (hc : c0 ≠ snap.code) :
    firedFor (evaluateOneWord e ps snap).1 c0 = firedFor e c0 := by
  rcases ow_cases e ps snap with ⟨_, hmap, _⟩ | ⟨prev, cur, _, hmap, _⟩
  · simp only [firedFor, hmap]
  · have := firedFor_emit_ne e snap.code ps prev cur c0 hc
    simp only [firedFor, hmap] at this ⊢
    exact this

theorem ow_flag_mono (e : StrategyEngine) (ps : PoolStock) (snap : StockSnapshot)
    (r : RuleId) (h : ruleFlag (firedFor e snap.code) r = true) :
    ruleFlag (firedFor (evaluateOneWord e ps snap).1 snap.code) r = true := by
  rcases ow_cases e ps snap with ⟨_, hmap, _⟩ | ⟨prev, cur, _, hmap, _⟩
  · simpa only [firedFor, hmap] using h
  · have hx := emit_flag_self e snap.code ps prev cur r
    simp only [firedFor, hmap] at hx ⊢
    rw [hx]
    simp only [firedFor] at h
    rw [h]
    simp

theorem ow_processed_mono (e : StrategyEngine) (ps : PoolStock) (snap : StockSnapshot)
    (c0 : String) (h : c0 ∈ e.processed_set) :
    c0 ∈ (evaluateOneWord e ps snap).1.processed_set := by
  rcases ow_cases e ps snap with ⟨_, _, hproc⟩ | ⟨prev, cur, _, _, hproc⟩
  · rw [hproc]
    exact h
  · rw [hproc]
    exact emit_processed_mono e snap.code ps prev cur c0 h

theorem ow_inv (e : StrategyEngine) (ps : PoolStock) (snap : StockSnapshot)
    (h : InvP e) : InvP (evaluateOneWord e ps snap).1 := by
  rcases ow_cases e ps snap with ⟨_, hmap, hproc⟩ | ⟨prev, cur, _, hmap, hproc⟩
  · intro c0 hb hs
    rw [hproc]
    simp only [firedFor, hmap] at hb hs
    exact h c0 hb hs
  · intro c0 hb hs
    rw [hproc]
    simp only [firedFor, hmap] at hb hs
    exact emit_inv e snap.code ps prev cur h c0 hb hs

theorem ow_event_code (e : StrategyEngine) (ps : PoolStock) (snap : StockSnapshot)
    (ev : AlertEvent) (h : (evaluateOneWord e ps snap).2 = some ev) :
    ev.code = snap.code := by
  rcases ow_cases e ps snap with ⟨hnone, _, _⟩ | ⟨prev, cur, hev, _, _⟩
  · rw [hnone] at h
    exact absurd h (by simp)
  · rw [hev] at h
    exact emit_event_code e snap.code ps prev cur ev h

theorem ow_event_attr (e : StrategyEngine) (ps : PoolStock) (snap : StockSnapshot)
    (ev : AlertEvent) (r : RuleId) (h : (evaluateOneWord e ps snap).2 = some ev)
    (hattr : alertAttributes ev r = true) :
    ruleFlag (firedFor (evaluateOneWord e ps snap).1 snap.code) r = true := by
  rcases ow_cases e ps snap with ⟨hnone, _, _⟩ | ⟨prev, cur, hev, hmap, _⟩
  · rw [hnone] at h
    exact absurd h (by simp)
  · rw [hev] at h
    have hsig := emit_event_attr e snap.code ps prev cur ev r h
    rw [hattr] at hsig
    have hflag := emit_flag_self e snap.code ps prev cur r
    rw [← hsig] at hflag
    simp only [Bool.or_true] at hflag
    simp only [firedFor, hmap] at hflag ⊢
    exact hflag

theorem ow_event_none_of_flag (e : StrategyEngine) (ps : PoolStock) (snap : StockSnapshot)
    (ev : AlertEvent) (r : RuleId) (h : (evaluateOneWord e ps snap).2 = some ev)
    (hflag : ruleFlag (firedFor e snap.code) r = true) :
    alertAttributes ev r = false := by
  rcases ow_cases e ps snap with ⟨hnone, _, _⟩ | ⟨prev, cur, hev, _, _⟩
  · rw [hnone] at h
    exact absurd h (by simp)
  · rw [hev] at h
    have hsig := emit_event_attr e snap.code ps prev cur ev r h
    rw [hsig]
    exact signalOf_false_of_flag e snap.code prev cur r hflag

/-!
Branch lemmas for evaluate.
-/

theorem evaluate_inactive (e : StrategyEngine) (snap : StockSnapshot)
    (h : alookup e.active_pool snap.code = none) : evaluate e snap = (e, none) := by
  unfold evaluate
  rw [h]

theorem evaluate_processed (e : StrategyEngine) (snap : StockSnapshot)
    (h : snap.code ∈ e.processed_set) : evaluate e snap = (e, none) := by
  unfold evaluate
  cases hA : alookup e.active_pool snap.code with
  | none => rfl
  | some ps => simp [h]

theorem evaluate_removal (e : StrategyEngine) (snap : StockSnapshot) (ps : PoolStock)
    (h1 : alookup e.active_pool snap.code = some ps)
    (h2 : snap.code ∉ e.processed_set)
    (h3 : snap.limit_down_price < snap.high_price) :
    evaluate e snap = (removeSymbol e snap.code, none) := by
  unfold evaluate
  rw [h1]
  simp [h2, h3]

theorem evaluate_clear (e : StrategyEngine) (snap : StockSnapshot) (ps : PoolStock)
    (h1 : alookup e.active_pool snap.code = some ps)
    (h2 : snap.code ∉ e.processed_set)
    (h3 : ¬ snap.limit_down_price < snap.high_price)
    (h4 : isOneWordLimitDown snap = false) :
    evaluate e snap = (clearSymbolRuntimeState e snap.code, none) := by
  unfold evaluate
  rw [h1]
  simp [h2, h3, h4]

/-- Case analysis for evaluate: a silent no-op, the eviction branch, the
non-one-word reset branch, or the one-word aggregation tail. -/
theorem evaluate_cases (e : StrategyEngine) (snap : StockSnapshot) :
    evaluate e snap = (e, none)
    ∨ evaluate e snap = (removeSymbol e snap.code, none)
    ∨ evaluate e snap = (clearSymbolRuntimeState e snap.code, none)
    ∨ ∃ ps, alookup e.active_pool snap.code = some ps ∧
        evaluate e snap = evaluateOneWord e ps snap := by
  cases hA : alookup e.active_pool snap.code with
  | none => exact Or.inl (evaluate_inactive e snap hA)
  | some ps =>
    by_cases hP : snap.code ∈ e.processed_set
    · exact Or.inl (evaluate_processed e snap hP)
    · by_cases hH : snap.limit_down_price < snap.high_price
      · exact Or.inr (Or.inl (evaluate_removal e snap ps hA hP hH))
      · cases hOW : isOneWordLimitDown snap
        · exact Or.inr (Or.inr (Or.inl (evaluate_clear e snap ps hA hP hH hOW)))
        · refine Or.inr (Or.inr (Or.inr ⟨ps, rfl, ?_⟩))
          unfold evaluate
          rw [hA]
          simp [hP, hH, hOW]

theorem evaluate_processed_mono (e : StrategyEngine) (snap : StockSnapshot) (c0 : String)
    (h : c0 ∈ e.processed_set) : c0 ∈ (evaluate e snap).1.processed_set := by
  rcases evaluate_cases e snap with h1 | h1 | h1 | ⟨ps, _, h1⟩ <;> rw [h1]
  · exact h
  · exact h
  · exact h
  · exact ow_processed_mono e ps snap c0 h

theorem evaluate_inv (e : StrategyEngine) (snap : StockSnapshot) (h : InvP e) :
    InvP (evaluate e snap).1 := by
  rcases evaluate_cases e snap with h1 | h1 | h1 | ⟨ps, _, h1⟩ <;> rw [h1]
  · exact h
  · intro c0 hb hs
    by_cases hc : c0 = snap.code
    · subst hc
      simp only [firedFor, removeSymbol, clearSymbolRuntimeState, alookup_aerase] at hb
      simp [emptyFired] at hb
    · simp only [firedFor, removeSymbol, clearSymbolRuntimeState, alookup_aerase,
        if_neg hc] at hb hs
      exact h c0 hb hs
  · exact fun c0 hb hs => h c0 hb hs
  · exact ow_inv e ps snap h

theorem evaluate_event_code (e : StrategyEngine) (snap : StockSnapshot) (ev : AlertEvent)
    (h : (evaluate e snap).2 = some ev) : ev.code = snap.code := by
  rcases evaluate_cases e snap with h1 | h1 | h1 | ⟨ps, _, h1⟩ <;> rw [h1] at h
  · exact absurd h (by simp)
  · exact absurd h (by simp)
  · exact absurd h (by simp)
  · exact ow_event_code e ps snap ev h

theorem evaluate_active_none (e : StrategyEngine) (snap : StockSnapshot) (c0 : String)
    (h : alookup e.active_pool c0 = none) :
    alookup (evaluate e snap).1.active_pool c0 = none := by
  rcases evaluate_cases e snap with h1 | h1 | h1 | ⟨ps, _, h1⟩ <;> rw [h1]
  · exact h
  · show alookup (aerase e.active_pool snap.code) c0 = none
    rw [alookup_aerase]
    split
    · rfl
    · exact h
  · exact h
  · rw [(ow_frame e ps snap).1]
    exact h

theorem evaluate_blocked (e : StrategyEngine) (snap : StockSnapshot) (c0 : String)
    (r : RuleId) (h : blockedB e c0 r = true) : blockedB (evaluate e snap).1 c0 r = true := by
  have h' : ruleFlag (firedFor e c0) r = true ∨ (alookup e.active_pool c0).isNone = true := by
    have hx := h
    unfold blockedB at hx
    simpa using hx
  rcases h' with hflag | hnone
  all_goals rcases evaluate_cases e snap with h1 | h1 | h1 | ⟨ps, hA, h1⟩ <;> rw [h1]
  · exact h
  · by_cases hc : c0 = snap.code
    · subst hc
      unfold blockedB
      have : alookup (removeSymbol e snap.code).active_pool snap.code = none := by
        show alookup (aerase e.active_pool snap.code) snap.code = none
        rw [alookup_aerase]
        simp
      rw [this]
      simp
    · unfold blockedB
      have hfe : firedFor (removeSymbol e snap.code) c0 = firedFor e c0 := by
        simp only [firedFor, removeSymbol, clearSymbolRuntimeState, alookup_aerase,
          if_neg hc]
      rw [hfe, hflag]
      simp
  · unfold blockedB
    have hfe : firedFor (clearSymbolRuntimeState e snap.code) c0 = firedFor e c0 := rfl
    rw [hfe, hflag]
    simp
  · unfold blockedB
    by_cases hc : c0 = snap.code
    · subst hc
      rw [ow_flag_mono e ps snap r hflag]
      simp
    · rw [ow_firedFor_ne e ps snap c0 hc, hflag]
      simp
  · exact h
  · unfold blockedB
    have : alookup (removeSymbol e snap.code).active_pool c0 = none := by
      show alookup (aerase e.active_pool snap.code) c0 = none
      rw [alookup_aerase]
      split
      · rfl
      · exact Option.isNone_iff_eq_none.mp hnone
    rw [this]
    simp
  · unfold blockedB
    have : alookup (clearSymbolRuntimeState e snap.code).active_pool c0 = none :=
      Option.isNone_iff_eq_none.mp hnone
    rw [this]
    simp
  · unfold blockedB
    rw [(ow_frame e ps snap).1, Option.isNone_iff_eq_none.mp hnone]
    simp

theorem evaluate_event_not_attr (e : StrategyEngine) (snap : StockSnapshot) (c0 : String)
    (r : RuleId) (ev : AlertEvent) (h : blockedB e c0 r = true)
    (hev : (evaluate e snap).2 = some ev) :
    (decide (ev.code = c0) && alertAttributes ev r) = false := by
  by_cases hevc : ev.code = c0
  · have hsc : ev.code = snap.code := evaluate_event_code e snap ev hev
    rcases evaluate_cases e snap with h1 | h1 | h1 | ⟨ps, hA, h1⟩ <;> rw [h1] at hev
    · exact absurd hev (by simp)
    · exact absurd hev (by simp)
    · exact absurd hev (by simp)
    · have hcc : c0 = snap.code := hevc ▸ hsc
      subst hcc
      have h' : ruleFlag (firedFor e snap.code) r = true ∨
          (alookup e.active_pool snap.code).isNone = true := by
        have hx := h
        unfold blockedB at hx
        simpa using hx
      rcases h' with hflag | hnone
      · rw [ow_event_none_of_flag e ps snap ev r hev hflag]
        simp
      · rw [hA] at hnone
        exact absurd hnone (by simp)
  · simp [hevc]

theorem evaluate_attr_sets_flag (e : StrategyEngine) (snap : StockSnapshot)
    (r : RuleId) (ev : AlertEvent) (hev : (evaluate e snap).2 = some ev)
    (hattr : alertAttributes ev r = true) :
    ruleFlag (firedFor (evaluate e snap).1 snap.code) r = true := by
  rcases evaluate_cases e snap with h1 | h1 | h1 | ⟨ps, hA, h1⟩ <;> rw [h1] at hev ⊢
  · exact absurd hev (by simp)
  · exact absurd hev (by simp)
  · exact absurd hev (by simp)
  · exact ow_event_attr e ps snap ev r hev hattr

/-!
Lemmas for the flush loop.
-/

theorem fs_cases (acc : StrategyEngine × List AlertEvent) (it : String × MinuteBucket) :
    flushStep acc it = acc
    ∨ ((flushStep acc it).2 = acc.2 ∧
        (flushStep acc it).1.fired_rules_map = acc.1.fired_rules_map ∧
        (flushStep acc it).1.processed_set = acc.1.processed_set ∧
        (flushStep acc it).1.active_pool = acc.1.active_pool)
    ∨ (∃ ps prev,
        alookup acc.1.active_pool it.1 = some ps ∧
        (flushStep acc it).1.active_pool = acc.1.active_pool ∧
        (flushStep acc it).1.fired_rules_map =
          (emitAlertIfHit acc.1 it.1 ps prev it.2).1.fired_rules_map ∧
        (flushStep acc it).1.processed_set =
          (emitAlertIfHit acc.1 it.1 ps prev it.2).1.processed_set ∧
        (((emitAlertIfHit acc.1 it.1 ps prev it.2).2 = none ∧ (flushStep acc it).2 = acc.2)
          ∨ ∃ ev, (emitAlertIfHit acc.1 it.1 ps prev it.2).2 = some ev ∧
              (flushStep acc it).2 = acc.2 ++ [ev])) := by
  unfold flushStep finalizeCompletedBucket
  cases hA : alookup acc.1.active_pool it.1 with
  | none => exact Or.inl rfl
  | some ps =>
    by_cases hP : it.1 ∈ acc.1.processed_set
    · simp only [hP]
      exact Or.inl (by simp)
    · cases hprev : alookup acc.1.prev_bucket_map it.1 with
      | none =>
        right; left
        simp [hP]
      | some prev =>
        right; right
        have hfr := emit_frame acc.1 it.1 ps prev it.2
        cases hev : (emitAlertIfHit acc.1 it.1 ps prev it.2).2 with
        | none =>
          refine ⟨ps, prev, rfl, ?_, ?_, ?_, Or.inl ⟨hev, ?_⟩⟩ <;>
            simp [hP, hprev, hev, hfr.1]
        | some ev =>
          refine ⟨ps, prev, rfl, ?_, ?_, ?_, Or.inr ⟨ev, hev, ?_⟩⟩ <;>
            simp [hP, hprev, hev, hfr.1]

theorem countRule_append (l1 l2 : List AlertEvent) (code : String) (r : RuleId) :
    countRule (l1 ++ l2) code r = countRule l1 code r + countRule l2 code r :=
  List.countP_append _ _ _

theorem blockedB_of_eq (x y : StrategyEngine) (c0 : String) (r : RuleId)
    (hf : x.fired_rules_map = y.fired_rules_map) (ha : x.active_pool = y.active_pool) :
    blockedB x c0 r = blockedB y c0 r := by
  unfold blockedB
  rw [show firedFor x c0 = firedFor y c0 from by simp only [firedFor, hf], ha]

theorem fs_blocked (acc : StrategyEngine × List AlertEvent) (it : String × MinuteBucket)
    (c0 : String) (r : RuleId) (h : blockedB acc.1 c0 r = true) :
    countRule (flushStep acc it).2 c0 r = countRule acc.2 c0 r ∧
      blockedB (flushStep acc it).1 c0 r = true := by
  have h' : ruleFlag (firedFor acc.1 c0) r = true ∨
      (alookup acc.1.active_pool c0).isNone = true := by
    have hx := h
    unfold blockedB at hx
    simpa using hx
  rcases fs_cases acc it with h1 | ⟨he, hf, _, ha⟩ | ⟨ps, prev, hA, ha, hf, _, hev⟩
  · rw [h1]
    exact ⟨rfl, h⟩
  · constructor
    · rw [he]
    · rw [blockedB_of_eq (flushStep acc it).1 acc.1 c0 r hf ha]
      exact h
  · have hflag2 : ∀ hflag : ruleFlag (firedFor acc.1 c0) r = true,
        ruleFlag (firedFor (flushStep acc it).1 c0) r = true := by
      intro hflag
      by_cases hc : c0 = it.1
      · have hx := emit_flag_self acc.1 it.1 ps prev it.2 r
        simp only [firedFor, hf, hc]
        simp only [firedFor] at hx
        rw [hx]
        have hflag' : ruleFlag (firedFor acc.1 it.1) r = true := hc ▸ hflag
        simp only [firedFor] at hflag'
        rw [hflag']
        simp
      · have hx := firedFor_emit_ne acc.1 it.1 ps prev it.2 c0 hc
        simp only [firedFor, hf]
        simp only [firedFor] at hx
        rw [hx]
        simp only [firedFor] at hflag
        exact hflag
    have hblk : blockedB (flushStep acc it).1 c0 r = true := by
      rcases h' with hflag | hnone
      · unfold blockedB
        rw [hflag2 hflag]
        simp
      · unfold blockedB
        rw [ha, Option.isNone_iff_eq_none.mp hnone]
        simp
    refine ⟨?_, hblk⟩
    rcases hev with ⟨_, he⟩ | ⟨ev, hevs, he⟩
    · rw [he]
    · rw [he, countRule_append]
      have hne : (decide (ev.code = c0) && alertAttributes ev r) = false := by
        by_cases hc : ev.code = c0
        · have hcode : ev.code = it.1 := emit_event_code acc.1 it.1 ps prev it.2 ev hevs
          have hit : c0 = it.1 := hc ▸ hcode
          rcases h' with hflag | hnone
          · have hflag' : ruleFlag (firedFor acc.1 it.1) r = true := hit ▸ hflag
            have hs0 := signalOf_false_of_flag acc.1 it.1 prev it.2 r hflag'
            have hsig := emit_event_attr acc.1 it.1 ps prev it.2 ev r hevs
            rw [hsig, hs0]
            simp
          · rw [hit, hA] at hnone
            exact absurd hnone (by simp)
        · simp [hc]
      simp [countRule, hne]

theorem invP_of_eq (x y : StrategyEngine) (hf : x.fired_rules_map = y.fired_rules_map)
    (hp : x.processed_set = y.processed_set) (h : InvP y) : InvP x := by
  intro c0 hb hs
  rw [hp]
  simp only [firedFor, hf] at hb hs
  exact h c0 hb hs

theorem fs_count (acc : StrategyEngine × List AlertEvent) (it : String × MinuteBucket)
    (c0 : String) (r : RuleId) :
    countRule (flushStep acc it).2 c0 r = countRule acc.2 c0 r
    ∨ (countRule (flushStep acc it).2 c0 r = countRule acc.2 c0 r + 1
        ∧ blockedB (flushStep acc it).1 c0 r = true
        ∧ blockedB acc.1 c0 r = false) := by
  rcases fs_cases acc it with h1 | ⟨he, _, _, _⟩ | ⟨ps, prev, hA, ha, hf, _, hev⟩
  · left
    rw [h1]
  · left
    rw [he]
  · rcases hev with ⟨_, he⟩ | ⟨ev, hevs, he⟩
    · left
      rw [he]
    · by_cases hpred : (decide (ev.code = c0) && alertAttributes ev r) = true
      · right
        have hcd := Bool.and_eq_true_iff.mp hpred
        have h1 : ev.code = c0 := of_decide_eq_true hcd.1
        have h2 : alertAttributes ev r = true := hcd.2
        have hcode : ev.code = it.1 := emit_event_code acc.1 it.1 ps prev it.2 ev hevs
        have hit : c0 = it.1 := by rw [← h1, hcode]
        have hsig := emit_event_attr acc.1 it.1 ps prev it.2 ev r hevs
        have hsigT : signalOf acc.1 it.1 prev it.2 r = true := by
          rw [← hsig]
          exact h2
        have hflagF : ruleFlag (firedFor acc.1 it.1) r = false := by
          cases hx : ruleFlag (firedFor acc.1 it.1) r
          · rfl
          · rw [signalOf_false_of_flag acc.1 it.1 prev it.2 r hx] at hsigT
            exact absurd hsigT (by simp)
        refine ⟨?_, ?_, ?_⟩
        · rw [he, countRule_append]
          simp [countRule, List.countP_cons, hpred]
        · unfold blockedB
          have hx := emit_flag_self acc.1 it.1 ps prev it.2 r
          have hfl : ruleFlag (firedFor (flushStep acc it).1 c0) r = true := by
            rw [hit]
            simp only [firedFor, hf]
            simp only [firedFor] at hx
            rw [hx]
            rw [hsigT]
            simp
          rw [hfl]
          simp
        · unfold blockedB
          rw [hit, hA]
          simp [hflagF]
      · left
        have hpf : (decide (ev.code = c0) && alertAttributes ev r) = false := by
          cases hx : (decide (ev.code = c0) && alertAttributes ev r)
          · rfl
          · exact absurd hx hpred
        rw [he, countRule_append]
        simp [countRule, List.countP_cons, hpf]

theorem fs_active (acc : StrategyEngine × List AlertEvent) (it : String × MinuteBucket) :
    (flushStep acc it).1.active_pool = acc.1.active_pool := by
  rcases fs_cases acc it with h1 | ⟨_, _, _, ha⟩ | ⟨_, _, _, ha, _, _, _⟩
  · rw [h1]
  · exact ha
  · exact ha

theorem fs_processed_mono (acc : StrategyEngine × List AlertEvent)
    (it : String × MinuteBucket) (c0 : String) (h : c0 ∈ acc.1.processed_set) :
    c0 ∈ (flushStep acc it).1.processed_set := by
  rcases fs_cases acc it with h1 | ⟨_, _, hp, _⟩ | ⟨ps, prev, _, _, _, hp, _⟩
  · rw [h1]
    exact h
  · rw [hp]
    exact h
  · rw [hp]
    exact emit_processed_mono acc.1 it.1 ps prev it.2 c0 h

theorem fs_inv (acc : StrategyEngine × List AlertEvent) (it : String × MinuteBucket)
    (h : InvP acc.1) : InvP (flushStep acc it).1 := by
  rcases fs_cases acc it with h1 | ⟨_, hf, hp, _⟩ | ⟨ps, prev, _, _, hf, hp, _⟩
  · rw [h1]
    exact h
  · exact invP_of_eq _ _ hf hp h
  · exact invP_of_eq (flushStep acc it).1 (emitAlertIfHit acc.1 it.1 ps prev it.2).1 hf hp
      (emit_inv acc.1 it.1 ps prev it.2 h)

theorem fs_inactive (acc : StrategyEngine × List AlertEvent) (it : String × MinuteBucket)
    (c0 : String) (h : alookup acc.1.active_pool c0 = none)
    (hacc : ∀ ev ∈ acc.2, ev.code ≠ c0) :
    ∀ ev ∈ (flushStep acc it).2, ev.code ≠ c0 := by
  rcases fs_cases acc it with h1 | ⟨he, _, _, _⟩ | ⟨ps, prev, hA, _, _, _, hev⟩
  · rw [h1]
    exact hacc
  · rw [he]
    exact hacc
  · rcases hev with ⟨_, he⟩ | ⟨ev, hevs, he⟩
    · rw [he]
      exact hacc
    · rw [he]
      intro ev2 hmem
      rcases List.mem_append.mp hmem with hmem1 | hmem2
      · exact hacc ev2 hmem1
      · have : ev2 = ev := by simpa using hmem2
        subst this
      
        have hcode : ev2.code = it.1 := emit_event_code acc.1 it.1 ps prev it.2 ev2 hevs
        intro hcontra
        rw [hcontra] at hcode
        rw [← hcode] at hA
        rw [h] at hA
        exact absurd hA (by simp)

theorem ff_fold (items : List (String × MinuteBucket)) (acc : StrategyEngine × List AlertEvent)
    (c0 : String) (r : RuleId) :
    (blockedB acc.1 c0 r = true →
        countRule ((items.foldl flushStep acc).2) c0 r = countRule acc.2 c0 r ∧
        blockedB ((items.foldl flushStep acc).1) c0 r = true)
    ∧ (countRule ((items.foldl flushStep acc).2) c0 r ≤ countRule acc.2 c0 r + 1
        ∧ (countRule ((items.foldl flushStep acc).2) c0 r = countRule acc.2 c0 r + 1 →
            blockedB ((items.foldl flushStep acc).1) c0 r = true)) := by
  induction items generalizing acc with
  | nil =>
    refine ⟨fun h => ⟨rfl, h⟩, ⟨Nat.le_succ _, fun h => ?_⟩⟩
    rw [List.foldl_nil] at h
    omega
  | cons it items ih =>
    simp only [List.foldl_cons]
    constructor
    · intro hblk
      have hs := fs_blocked acc it c0 r hblk
      have hrec := (ih (flushStep acc it)).1 hs.2
      exact ⟨by rw [hrec.1, hs.1], hrec.2⟩
    · rcases fs_count acc it c0 r with hsame | ⟨heq, hblkA, _⟩
      · have ih2 := (ih (flushStep acc it)).2
        constructor
        · calc countRule ((items.foldl flushStep (flushStep acc it)).2) c0 r
              ≤ countRule (flushStep acc it).2 c0 r + 1 := ih2.1
            _ = countRule acc.2 c0 r + 1 := by rw [hsame]
        · intro hfin
          exact ih2.2 (by rw [hsame, ← hfin])
      · have p1 := (ih (flushStep acc it)).1 hblkA
        constructor
        · rw [p1.1, heq]
        · intro _
          exact p1.2

theorem ff_active (items : List (String × MinuteBucket))
    (acc : StrategyEngine × List AlertEvent) :
    ((items.foldl flushStep acc).1).active_pool = acc.1.active_pool := by
  induction items generalizing acc with
  | nil => rfl
  | cons it items ih =>
    simp only [List.foldl_cons]
    rw [ih (flushStep acc it), fs_active]

theorem ff_processed_mono (items : List (String × MinuteBucket))
    (acc : StrategyEngine × List AlertEvent) (c0 : String) (h : c0 ∈ acc.1.processed_set) :
    c0 ∈ ((items.foldl flushStep acc).1).processed_set := by
  induction items generalizing acc with
  | nil => exact h
  | cons it items ih =>
    simp only [List.foldl_cons]
    exact ih (flushStep acc it) (fs_processed_mono acc it c0 h)

theorem ff_inv (items : List (String × MinuteBucket))
    (acc : StrategyEngine × List AlertEvent) (h : InvP acc.1) :
    InvP ((items.foldl flushStep acc).1) := by
  induction items generalizing acc with
  | nil => exact h
  | cons it items ih =>
    simp only [List.foldl_cons]
    exact ih (flushStep acc it) (fs_inv acc it h)

theorem ff_inactive (items : List (String × MinuteBucket))
    (acc : StrategyEngine × List AlertEvent) (c0 : String)
    (h : alookup acc.1.active_pool c0 = none) (hacc : ∀ ev ∈ acc.2, ev.code ≠ c0) :
    ∀ ev ∈ ((items.foldl flushStep acc).2), ev.code ≠ c0 := by
  induction items generalizing acc with
  | nil => exact hacc
  | cons it items ih =>
    simp only [List.foldl_cons]
    refine ih (flushStep acc it) ?_ (fs_inactive acc it c0 h hacc)
    rw [fs_active]
    exact h

theorem flush_parts (e : StrategyEngine) :
    (flushPending e).2 = (e.current_bucket_map.foldl flushStep (e, [])).2 ∧
    (flushPending e).1.fired_rules_map =
      (e.current_bucket_map.foldl flushStep (e, [])).1.fired_rules_map ∧
    (flushPending e).1.processed_set =
      (e.current_bucket_map.foldl flushStep (e, [])).1.processed_set ∧
    (flushPending e).1.active_pool =
      (e.current_bucket_map.foldl flushStep (e, [])).1.active_pool := by
  unfold flushPending
  exact ⟨rfl, rfl, rfl, rfl⟩

theorem flush_blockedP (e : StrategyEngine) (c0 : String) (r : RuleId)
    (h : blockedB e c0 r = true) :
    countRule (flushPending e).2 c0 r = 0 ∧ blockedB (flushPending e).1 c0 r = true := by
  have hp := flush_parts e
  have hff := (ff_fold e.current_bucket_map (e, []) c0 r).1 h
  constructor
  · rw [hp.1, hff.1]
    rfl
  · rw [blockedB_of_eq (flushPending e).1
      (e.current_bucket_map.foldl flushStep (e, [])).1 c0 r hp.2.1 hp.2.2.2]
    exact hff.2

theorem flush_countP (e : StrategyEngine) (c0 : String) (r : RuleId) :
    countRule (flushPending e).2 c0 r ≤ 1 ∧
      (countRule (flushPending e).2 c0 r = 1 → blockedB (flushPending e).1 c0 r = true) := by
  have hp := flush_parts e
  have hff := (ff_fold e.current_bucket_map (e, []) c0 r).2
  constructor
  · rw [hp.1]
    exact hff.1
  · intro h1
    rw [blockedB_of_eq (flushPending e).1
      (e.current_bucket_map.foldl flushStep (e, [])).1 c0 r hp.2.1 hp.2.2.2]
    refine hff.2 ?_
    rw [← hp.1]
    exact h1

theorem flush_active (e : StrategyEngine) :
    (flushPending e).1.active_pool = e.active_pool := by
  rw [(flush_parts e).2.2.2, ff_active]

theorem flush_processed_mono (e : StrategyEngine) (c0 : String) (h : c0 ∈ e.processed_set) :
    c0 ∈ (flushPending e).1.processed_set := by
  rw [(flush_parts e).2.2.1]
  exact ff_processed_mono e.current_bucket_map (e, []) c0 h

theorem flush_inv (e : StrategyEngine) (h : InvP e) : InvP (flushPending e).1 := by
  have hp := flush_parts e
  exact invP_of_eq (flushPending e).1 (e.current_bucket_map.foldl flushStep (e, [])).1
    hp.2.1 hp.2.2.1 (ff_inv e.current_bucket_map (e, []) h)

theorem flush_inactive (e : StrategyEngine) (c0 : String)
    (h : alookup e.active_pool c0 = none) :
    ∀ ev ∈ (flushPending e).2, ev.code ≠ c0 := by
  rw [(flush_parts e).1]
  exact ff_inactive e.current_bucket_map (e, []) c0 h (by intro ev hmem; simp at hmem)

/-!
Lemmas for command traces.
-/

theorem runCmds_eval (e : StrategyEngine) (s : StockSnapshot) (rest : List Cmd) :
    runCmds e (Cmd.eval s :: rest) =
      ((runCmds (evaluate e s).1 rest).1,
        (evaluate e s).2.toList ++ (runCmds (evaluate e s).1 rest).2) := rfl

theorem runCmds_flush (e : StrategyEngine) (rest : List Cmd) :
    runCmds e (Cmd.flush :: rest) =
      ((runCmds (flushPending e).1 rest).1,
        (flushPending e).2 ++ (runCmds (flushPending e).1 rest).2) := rfl

theorem run_processed_mono (cmds : List Cmd) (e : StrategyEngine) (c0 : String)
    (h : c0 ∈ e.processed_set) : c0 ∈ (runCmds e cmds).1.processed_set := by
  induction cmds generalizing e with
  | nil => exact h
  | cons cmd rest ih =>
    cases cmd with
    | eval s =>
      rw [runCmds_eval]
      exact ih (evaluate e s).1 (evaluate_processed_mono e s c0 h)
    | flush =>
      rw [runCmds_flush]
      exact ih (flushPending e).1 (flush_processed_mono e c0 h)

theorem run_inv (cmds : List Cmd) (e : StrategyEngine) (h : InvP e) :
    InvP (runCmds e cmds).1 := by
  induction cmds generalizing e with
  | nil => exact h
  | cons cmd rest ih =>
    cases cmd with
    | eval s =>
      rw [runCmds_eval]
      exact ih (evaluate e s).1 (evaluate_inv e s h)
    | flush =>
      rw [runCmds_flush]
      exact ih (flushPending e).1 (flush_inv e h)

theorem run_inactive (cmds : List Cmd) (e : StrategyEngine) (c0 : String)
    (h : alookup e.active_pool c0 = none) :
    (∀ ev ∈ (runCmds e cmds).2, ev.code ≠ c0) ∧
      alookup ((runCmds e cmds).1).active_pool c0 = none := by
  induction cmds generalizing e with
  | nil =>
    exact ⟨by intro ev hmem; simp [runCmds] at hmem, h⟩
  | cons cmd rest ih =>
    cases cmd with
    | eval s =>
      rw [runCmds_eval]
      have hnext := ih (evaluate e s).1 (evaluate_active_none e s c0 h)
      refine ⟨?_, hnext.2⟩
      intro ev hmem
      rcases List.mem_append.mp hmem with hmem1 | hmem2
      · cases hev : (evaluate e s).2 with
        | none =>
          rw [hev] at hmem1
          simp at hmem1
        | some ev2 =>
          rw [hev] at hmem1
          simp at hmem1
          subst hmem1
          have hcode : ev.code = s.code := evaluate_event_code e s ev hev
          intro hcontra
          rw [hcontra] at hcode
          rw [hcode] at h
          have := evaluate_inactive e s h
          rw [this] at hev
          simp at hev
      · exact hnext.1 ev hmem2
    | flush =>
      rw [runCmds_flush]
      have hact : alookup (flushPending e).1.active_pool c0 = none := by
        rw [flush_active]
        exact h
      have hnext := ih (flushPending e).1 hact
      refine ⟨?_, hnext.2⟩
      intro ev hmem
      rcases List.mem_append.mp hmem with hmem1 | hmem2
      · exact flush_inactive e c0 h ev hmem1
      · exact hnext.1 ev hmem2

theorem run_blockedP (cmds : List Cmd) (e : StrategyEngine) (c0 : String) (r : RuleId)
    (h : blockedB e c0 r = true) :
    countRule (runCmds e cmds).2 c0 r = 0 ∧ blockedB ((runCmds e cmds).1) c0 r = true := by
  induction cmds generalizing e with
  | nil => exact ⟨rfl, h⟩
  | cons cmd rest ih =>
    cases cmd with
    | eval s =>
      rw [runCmds_eval]
      have hnext := ih (evaluate e s).1 (evaluate_blocked e s c0 r h)
      refine ⟨?_, hnext.2⟩
      rw [countRule_append, hnext.1]
      cases hev : (evaluate e s).2 with
      | none => rfl
      | some ev =>
        have hne := evaluate_event_not_attr e s c0 r ev h hev
        simp [countRule, List.countP_cons, hne]
    | flush =>
      rw [runCmds_flush]
      have hfl := flush_blockedP e c0 r h
      have hnext := ih (flushPending e).1 hfl.2
      refine ⟨?_, hnext.2⟩
      rw [countRule_append, hfl.1, hnext.1]

theorem run_count (cmds : List Cmd) (e : StrategyEngine) (c0 : String) (r : RuleId) :
    countRule (runCmds e cmds).2 c0 r ≤ 1 := by
  induction cmds generalizing e with
  | nil => exact Nat.zero_le 1
  | cons cmd rest ih =>
    cases cmd with
    | eval s =>
      rw [runCmds_eval]
      rw [countRule_append]
      cases hev : (evaluate e s).2 with
      | none =>
        have := ih (evaluate e s).1
        simpa [countRule] using this
      | some ev =>
        by_cases hpred : (decide (ev.code = c0) && alertAttributes ev r) = true
        · have hcd := Bool.and_eq_true_iff.mp hpred
          have h1 : ev.code = c0 := of_decide_eq_true hcd.1
          have h2 : alertAttributes ev r = true := hcd.2
          have hcode : ev.code = s.code := evaluate_event_code e s ev hev
          have hflag := evaluate_attr_sets_flag e s r ev hev h2
          have hblk : blockedB (evaluate e s).1 c0 r = true := by
            unfold blockedB
            rw [show c0 = s.code from by rw [← h1, hcode], hflag]
            simp
          have hrest := (run_blockedP rest (evaluate e s).1 c0 r hblk).1
          rw [hrest]
          simp [countRule, List.countP_cons, hpred]
        · have hpf : (decide (ev.code = c0) && alertAttributes ev r) = false := by
            cases hx : (decide (ev.code = c0) && alertAttributes ev r)
            · rfl
            · exact absurd hx hpred
          have := ih (evaluate e s).1
          simpa [countRule, List.countP_cons, hpf] using this
    | flush =>
      rw [runCmds_flush, countRule_append]
      have hfl := flush_countP e c0 r
      by_cases hzero : countRule (flushPending e).2 c0 r = 0
      · rw [hzero]
        have := ih (flushPending e).1
        omega
      · have hone : countRule (flushPending e).2 c0 r = 1 := by
          have := hfl.1
          omega
        have hblk := hfl.2 hone
        have hrest := (run_blockedP rest (flushPending e).1 c0 r hblk).1
        rw [hone, hrest]

theorem askChangeRatio_eq_div (previous current : MinuteBucket) :
    askChangeRatio previous current =
      (askDelta previous current : ℚ) / (askBase previous : ℚ) :=
  Rat.divInt_eq_div _ _

theorem volumeChangeRatio_eq_div (previous current : MinuteBucket) :
    volumeChangeRatio previous current =
      ((current.end_volume_total - previous.end_volume_total : Int) : ℚ) /
        ((max previous.end_volume_total 1 : Int) : ℚ) :=
  Rat.divInt_eq_div _ _

theorem mem_monitorable_iff (e : StrategyEngine) (c : String) :
    c ∈ monitorableCodes e ↔
      (alookup e.active_pool c).isSome = true ∧ c ∉ e.processed_set := by
  unfold monitorableCodes
  rw [List.mem_filter, alookup_isSome_iff_mem_keys]
  simp

theorem inv_register (e : StrategyEngine) (stocks : List PoolStock) :
    InvP (registerPool e stocks) := by
  intro c0 hb _
  simp [firedFor, registerPool, alookup, emptyFired] at hb

/-!
Claim theorems.
-/

/-- C1: for every symbol and every finalized bucket pair evaluated by the
engine, the buy-flow-breakout rule fires (is newly recorded in the
fired-rule set by _emit_alert_if_hit) if and only if before > 0 and
incoming > before, where before is the previous bucket cumulative volume
and incoming = max(current cumulative volume - previous cumulative volume,
0), and the rule has not already fired for that symbol in the session. -/
theorem buy_flow_breakout_rule_iff (e : StrategyEngine) (code : String) (ps : PoolStock)
    (previous current : MinuteBucket) :
    ((firedFor (emitAlertIfHit e code ps previous current).1 code).buyFlow = true ∧
      (firedFor e code).buyFlow = false)
    ↔ (0 < previous.end_volume_total ∧
        previous.end_volume_total <
          max (current.end_volume_total - previous.end_volume_total) 0 ∧
        (firedFor e code).buyFlow = false) := by
  rw [firedFor_emit_self]
  simp only
  cases hb : (firedFor e code).buyFlow
  · simp only [Bool.false_or]
    unfold buyFlowSignal cumulativeBefore currentBuyVolume
    rw [hb]
    simp only [Bool.not_false, Bool.true_and, Bool.and_eq_true, decide_eq_true_eq]
    by_cases hp : 0 < previous.end_volume_total
    · rw [max_eq_left (le_of_lt hp)]
      simp
    · rw [max_eq_right (le_of_not_lt hp)]
      simp [hp]
  · simp [hb]

/-- C2: the sell-one-drop rule of _emit_alert_if_hit: with
askBase = max(previous ask size, 1), delta = previous ask size - current
ask size and ratio = delta / askBase, the minute qualifies iff
ratio >= ask_drop_threshold and delta >= min_abs_delta_ask; the per-symbol
consecutive counter becomes old counter + 1 on a qualifying minute and 0
otherwise; and the rule is newly recorded as fired exactly when the minute
qualifies, the updated counter has reached confirm_minutes, and the rule
had not already fired for the symbol. -/
theorem sell1_drop_rule_iff (e : StrategyEngine) (code : String) (ps : PoolStock)
    (previous current : MinuteBucket) :
    (sell1Count (emitAlertIfHit e code ps previous current).1 code =
        if e.ask_drop_threshold ≤
              ((previous.last_ask_v1 - current.last_ask_v1 : Int) : ℚ) /
                ((max previous.last_ask_v1 1 : Int) : ℚ) ∧
            e.min_abs_delta_ask ≤ previous.last_ask_v1 - current.last_ask_v1 then
          sell1Count e code + 1
        else 0)
    ∧ (((firedFor (emitAlertIfHit e code ps previous current).1 code).sell1Drop = true ∧
          (firedFor e code).sell1Drop = false)
        ↔ ((e.ask_drop_threshold ≤
              ((previous.last_ask_v1 - current.last_ask_v1 : Int) : ℚ) /
                ((max previous.last_ask_v1 1 : Int) : ℚ) ∧
            e.min_abs_delta_ask ≤ previous.last_ask_v1 - current.last_ask_v1) ∧
            e.confirm_minutes ≤
              (if e.ask_drop_threshold ≤
                    ((previous.last_ask_v1 - current.last_ask_v1 : Int) : ℚ) /
                      ((max previous.last_ask_v1 1 : Int) : ℚ) ∧
                  e.min_abs_delta_ask ≤ previous.last_ask_v1 - current.last_ask_v1 then
                sell1Count e code + 1
              else 0) ∧
            (firedFor e code).sell1Drop = false)) := by
  have hQ : askDropHit e previous current = true ↔
      (e.ask_drop_threshold ≤
          ((previous.last_ask_v1 - current.last_ask_v1 : Int) : ℚ) /
            ((max previous.last_ask_v1 1 : Int) : ℚ) ∧
        e.min_abs_delta_ask ≤ previous.last_ask_v1 - current.last_ask_v1) := by
    unfold askDropHit
    rw [askChangeRatio_eq_div]
    unfold askDelta askBase
    simp [Bool.and_eq_true, decide_eq_true_eq]
  have hIf : nextHitCount e code previous current =
      if e.ask_drop_threshold ≤
            ((previous.last_ask_v1 - current.last_ask_v1 : Int) : ℚ) /
              ((max previous.last_ask_v1 1 : Int) : ℚ) ∧
          e.min_abs_delta_ask ≤ previous.last_ask_v1 - current.last_ask_v1 then
        sell1Count e code + 1
      else 0 := by
    unfold nextHitCount
    exact if_congr hQ rfl rfl
  constructor
  · rw [sell1Count_emit_self, hIf]
  · rw [firedFor_emit_self]
    simp only
    cases hs : (firedFor e code).sell1Drop
    · simp only [Bool.false_or]
      unfold sell1Signal
      rw [hs]
      simp only [Bool.not_false, Bool.true_and, Bool.and_eq_true, decide_eq_true_eq,
        and_true, eq_self_iff_true]
      rw [← hIf]
      constructor
      · rintro ⟨h1, h2⟩
        exact ⟨hQ.mp h1, h2⟩
      · rintro ⟨h1, h2⟩
        exact ⟨hQ.mpr h1, h2⟩
    · simp [hs]

/-- C3: along any sequence of evaluate/flush calls each rule is attributed
to a given symbol by at most one alert (so each rule identifier is added
to the fired-rule set at most once per session), and once both rules have
fired for a symbol after registration, every subsequent evaluate call for
that symbol returns None with the engine state untouched and the symbol is
excluded from monitorable_codes. -/
theorem rules_fire_once_and_full_silencing :
    (∀ (e : StrategyEngine) (cmds : List Cmd) (code : String) (r : RuleId),
        countRule (runCmds e cmds).2 code r ≤ 1)
    ∧ (∀ (e0 : StrategyEngine) (stocks : List PoolStock) (cmds cmds' : List Cmd)
          (code : String) (snap : StockSnapshot),
        snap.code = code →
        (firedFor ((runCmds (registerPool e0 stocks) cmds).1) code).buyFlow = true →
        (firedFor ((runCmds (registerPool e0 stocks) cmds).1) code).sell1Drop = true →
        evaluate ((runCmds ((runCmds (registerPool e0 stocks) cmds).1) cmds').1) snap
            = (((runCmds ((runCmds (registerPool e0 stocks) cmds).1) cmds').1), none)
          ∧ code ∉ monitorableCodes
              ((runCmds ((runCmds (registerPool e0 stocks) cmds).1) cmds').1)) := by
  constructor
  · intro e cmds code r
    exact run_count cmds e code r
  · intro e0 stocks cmds cmds' code snap hsc hbf hsf
    have hInv : InvP ((runCmds (registerPool e0 stocks) cmds).1) :=
      run_inv cmds (registerPool e0 stocks) (inv_register e0 stocks)
    have hproc : code ∈ ((runCmds (registerPool e0 stocks) cmds).1).processed_set :=
      hInv code hbf hsf
    have hproc2 : code ∈
        ((runCmds ((runCmds (registerPool e0 stocks) cmds).1) cmds').1).processed_set :=
      run_processed_mono cmds' _ code hproc
    constructor
    · exact evaluate_processed _ snap (hsc ▸ hproc2)
    · intro hmem
      exact ((mem_monitorable_iff _ code).mp hmem).2 hproc2

theorem rules_fire_once_and_full_silencing_witness :
    evaluate ((runCmds ((runCmds (registerPool cfgEngine [stockA]) combinedCmds).1) []).1)
        (snapOW 47040 100 600)
      = (((runCmds ((runCmds (registerPool cfgEngine [stockA]) combinedCmds).1) []).1), none)
    ∧ "600000" ∉ monitorableCodes
        ((runCmds ((runCmds (registerPool cfgEngine [stockA]) combinedCmds).1) []).1) :=
  rules_fire_once_and_full_silencing.2 cfgEngine [stockA] combinedCmds [] "600000"
    (snapOW 47040 100 600) rfl (by decide) (by decide)

/-- C4 counterexample: a registered (still pooled) but fully silenced
symbol is NOT moved to the removed set by a snapshot whose high price
breaches the limit-down price - evaluate returns before the eviction
branch, so the symbol stays in the active pool and outside removed_pool,
contradicting the claim that the first breaching snapshot always evicts
every registered symbol. -/
theorem removal_skipped_for_fully_silenced_symbol :
    (alookup silencedEngine.active_pool "600000").isSome = true
    ∧ "600000" ∈ silencedEngine.processed_set
    ∧ (snapBreach 47040).code = "600000"
    ∧ (snapBreach 47040).limit_down_price < (snapBreach 47040).high_price
    ∧ "600000" ∉ ((evaluate silencedEngine (snapBreach 47040)).1).removed_pool
    ∧ (alookup ((evaluate silencedEngine (snapBreach 47040)).1).active_pool
        "600000").isSome = true := by
  decide

/-- C4 amended: for every registered symbol that is not fully silenced, a
snapshot with high_price > limit_down_price immediately moves the symbol
to the removed set, drops its runtime state (pending bucket, previous
bucket, confirmation counter, fired-rule entry), removes it from the
active pool regardless of any pending confirmation state, and from that
point on no evaluate or flush call in the same session returns an alert
for that symbol. -/
theorem limit_breach_evicts_amended (e : StrategyEngine) (snap : StockSnapshot)
    (ps : PoolStock) (cmds : List Cmd)
    (h1 : alookup e.active_pool snap.code = some ps)
    (h2 : snap.code ∉ e.processed_set)
    (h3 : snap.limit_down_price < snap.high_price) :
    (evaluate e snap).2 = none
    ∧ snap.code ∈ (evaluate e snap).1.removed_pool
    ∧ alookup (evaluate e snap).1.active_pool snap.code = none
    ∧ alookup (evaluate e snap).1.prev_bucket_map snap.code = none
    ∧ alookup (evaluate e snap).1.current_bucket_map snap.code = none
    ∧ alookup (evaluate e snap).1.sell1_confirm_count_map snap.code = none
    ∧ alookup (evaluate e snap).1.fired_rules_map snap.code = none
    ∧ List.countP (fun ev => decide (ev.code = snap.code))
        (runCmds (evaluate e snap).1 cmds).2 = 0 := by
  rw [evaluate_removal e snap ps h1 h2 h3]
  have hact : alookup (removeSymbol e snap.code).active_pool snap.code = none := by
    show alookup (aerase e.active_pool snap.code) snap.code = none
    rw [alookup_aerase]
    simp
  refine ⟨rfl, ?_, hact, ?_, ?_, ?_, ?_, ?_⟩
  · show snap.code ∈ sadd e.removed_pool snap.code
    exact (mem_sadd _ _ _).mpr (Or.inr rfl)
  · show alookup (aerase e.prev_bucket_map snap.code) snap.code = none
    rw [alookup_aerase]
    simp
  · show alookup (aerase e.current_bucket_map snap.code) snap.code = none
    rw [alookup_aerase]
    simp
  · show alookup (aerase e.sell1_confirm_count_map snap.code) snap.code = none
    rw [alookup_aerase]
    simp
  · show alookup (aerase e.fired_rules_map snap.code) snap.code = none
    rw [alookup_aerase]
    simp
  · have hr := (run_inactive cmds (removeSymbol e snap.code) snap.code hact).1
    rw [List.countP_eq_zero]
    intro ev hmem
    simp [hr ev hmem]

theorem limit_breach_evicts_amended_witness :
    (evaluate (registerPool cfgEngine [stockA]) (snapBreach 46800)).2 = none
    ∧ (snapBreach 46800).code ∈
        (evaluate (registerPool cfgEngine [stockA]) (snapBreach 46800)).1.removed_pool
    ∧ alookup (evaluate (registerPool cfgEngine [stockA]) (snapBreach 46800)).1.active_pool
        (snapBreach 46800).code = none
    ∧ alookup (evaluate (registerPool cfgEngine [stockA]) (snapBreach 46800)).1.prev_bucket_map
        (snapBreach 46800).code = none
    ∧ alookup (evaluate (registerPool cfgEngine [stockA]) (snapBreach 46800)).1.current_bucket_map
        (snapBreach 46800).code = none
    ∧ alookup (evaluate (registerPool cfgEngine [stockA])
        (snapBreach 46800)).1.sell1_confirm_count_map (snapBreach 46800).code = none
    ∧ alookup (evaluate (registerPool cfgEngine [stockA]) (snapBreach 46800)).1.fired_rules_map
        (snapBreach 46800).code = none
    ∧ List.countP (fun ev => decide (ev.code = (snapBreach 46800).code))
        (runCmds (evaluate (registerPool cfgEngine [stockA]) (snapBreach 46800)).1
          [Cmd.eval (snapOW 46860 1000 100), Cmd.flush]).2 = 0 :=
  limit_breach_evicts_amended (registerPool cfgEngine [stockA]) (snapBreach 46800) stockA
    [Cmd.eval (snapOW 46860 1000 100), Cmd.flush] (by decide) (by decide) (by decide)

/-- C6: flush_pending is idempotent - after one flush_pending call, which
clears all pending bucket state, an immediately following second call
returns the empty list. -/
theorem flush_pending_idempotent (e : StrategyEngine) :
    (flushPending ((flushPending e).1)).2 = [] := rfl

/-- C7 counterexample: with confirm_minutes 2 and ask_drop_threshold 0.3,
feeding three one-word snapshots in consecutive minutes with ask sizes
1000, 600, 300 yields no alert at all through the third evaluate call: the
third minute bucket is still pending, so the rule does not fire on the
third minute as the claim states. -/
theorem sell1_scenario_no_fire_on_third_minute :
    (runCmds (registerPool cfgEngine2 [stockA]) c7Cmds).2 = [] := by decide

/-- C7 amended: under confirm_minutes 2 and ask_drop_threshold 0.3, the
three one-word minutes with ask sizes 1000, 600, 300 make the sell-one-drop
rule fire when the third minute bucket is finalized - by a later-minute
snapshot or the session-end flush - producing exactly one alert whose
reason is sell1_drop; the evaluate call of the third minute itself returns
no alert. -/
theorem sell1_scenario_fires_on_finalization :
    (runCmds (registerPool cfgEngine2 [stockA]) (c7Cmds ++ [Cmd.flush])).2.map
        (fun ev => ev.reason) = [RULE_SELL1_DROP] := by
  decide

/-- C9: a snapshot that is not one-word limit-down but has
high_price <= limit_down_price resets the in-progress bucket, the previous
bucket and the sell-one confirmation counter of its symbol and returns
None, leaving the active pool unchanged and the symbol monitorable; and
concretely, a non-one-word minute interposed between qualifying minutes
prevents the sell-one-drop firing that the same pressure otherwise
produces. -/
theorem non_one_word_reset_and_prevention :
    (∀ (e : StrategyEngine) (snap : StockSnapshot),
        (alookup e.active_pool snap.code).isSome = true →
        snap.code ∉ e.processed_set →
        isOneWordLimitDown snap = false →
        snap.high_price ≤ snap.limit_down_price →
        evaluate e snap = (clearSymbolRuntimeState e snap.code, none)
          ∧ alookup (evaluate e snap).1.current_bucket_map snap.code = none
          ∧ alookup (evaluate e snap).1.sell1_confirm_count_map snap.code = none
          ∧ (evaluate e snap).1.active_pool = e.active_pool
          ∧ snap.code ∈ monitorableCodes (evaluate e snap).1)
    ∧ ((runCmds (registerPool cfgEngine2 [stockA]) firingCmds).2.map (fun ev => ev.reason)
          = [RULE_SELL1_DROP]
        ∧ (runCmds (registerPool cfgEngine2 [stockA]) preventedCmds).2 = []) := by
  constructor
  · intro e snap hA hP hOW hH
    obtain ⟨ps, hps⟩ := Option.isSome_iff_exists.mp hA
    have h3 : ¬ snap.limit_down_price < snap.high_price := not_lt.mpr hH
    have heq := evaluate_clear e snap ps hps hP h3 hOW
    rw [heq]
    refine ⟨rfl, ?_, ?_, rfl, ?_⟩
    · show alookup (aerase e.current_bucket_map snap.code) snap.code = none
      rw [alookup_aerase]
      simp
    · show alookup (aerase e.sell1_confirm_count_map snap.code) snap.code = none
      rw [alookup_aerase]
      simp
    · rw [mem_monitorable_iff]
      exact ⟨hA, hP⟩
  · exact ⟨by decide, by decide⟩

theorem non_one_word_reset_and_prevention_witness :
    evaluate (registerPool cfgEngine [stockA]) (snapGlitch 46800 450 220)
        = (clearSymbolRuntimeState (registerPool cfgEngine [stockA])
            (snapGlitch 46800 450 220).code, none)
      ∧ alookup (evaluate (registerPool cfgEngine [stockA])
          (snapGlitch 46800 450 220)).1.current_bucket_map
          (snapGlitch 46800 450 220).code = none
      ∧ alookup (evaluate (registerPool cfgEngine [stockA])
          (snapGlitch 46800 450 220)).1.sell1_confirm_count_map
          (snapGlitch 46800 450 220).code = none
      ∧ (evaluate (registerPool cfgEngine [stockA])
          (snapGlitch 46800 450 220)).1.active_pool
          = (registerPool cfgEngine [stockA]).active_pool
      ∧ (snapGlitch 46800 450 220).code ∈
          monitorableCodes (evaluate (registerPool cfgEngine [stockA])
            (snapGlitch 46800 450 220)).1 :=
  non_one_word_reset_and_prevention.1 (registerPool cfgEngine [stockA])
    (snapGlitch 46800 450 220) (by decide) (by decide) (by decide) (by decide)

/-- C10: a snapshot whose code is not a key of the active pool (never
registered, or previously removed) makes evaluate return None and leaves
the entire engine state - every field - exactly unchanged. -/
theorem evaluate_unknown_code_noop (e : StrategyEngine) (snap : StockSnapshot)
    (h : alookup e.active_pool snap.code = none) :
    evaluate e snap = (e, none) :=
  evaluate_inactive e snap h

theorem evaluate_unknown_code_noop_witness :
    evaluate (registerPool cfgEngine [stockA])
        (⟨"000001", "B", 10, 10, 10, 100, 100, DataQuality.minute_proxy, 46800⟩ : StockSnapshot)
      = (registerPool cfgEngine [stockA], none) :=
  evaluate_unknown_code_noop (registerPool cfgEngine [stockA])
    (⟨"000001", "B", 10, 10, 10, 100, 100, DataQuality.minute_proxy, 46800⟩ : StockSnapshot)
    (by decide)

/-- C5: the claim says run_single_day_backtest never raises for any
data-quality scenario; but on two quiet in-window one-word bars the replay
ends without a trigger while a previous bucket exists, and building the
threshold_not_met result reads last_point.ts, last_point.ask_v1 and
last_point.volume from a _MinuteBucket whose fields are named end_ts,
last_ask_v1 and end_volume_total - an AttributeError, modelled as the
error outcome. -/
theorem backtest_nontrigger_path_raises :
    runSingleDayBacktest c8Request c5Bars = Except.error RunnerError.attributeError := rfl

/-- C8: on the claim scenario (cumulative volumes 100, 200 outside the
window at 09:31/09:32, then 50, 400 in-window at 13:01/13:02) the runner
does not return triggered=true with reason buy_flow_breakout: the 13:02
bucket is never finalized (no later bar arrives and the runner never
flushes), so the replay ends without a trigger and then crashes with the
same AttributeError while building the threshold_not_met result. -/
theorem backtest_buy_flow_scenario_raises :
    runSingleDayBacktest c8Request c8Bars = Except.error RunnerError.attributeError := rfl
